import Mathlib

/-!
Verification of the Monte Carlo tax-scenario simulation engine
(src/simulation.ts) and the representative-trajectory selector
(src/stores/calculator.ts).

Modelling conventions:
* JavaScript `number` is modelled as `ℚ`.  Decimal literals of the source
  (0.05, 0.0125, ...) are taken at their decimal value.
* A JS object used as a string-keyed record is a `List (String × α)` in
  insertion order, with `recordGet`/`recordSet` mirroring property access
  and assignment.
* `Math.random`-based sampling: one call of `randomNormal` performs one
  Box–Muller step from two fresh uniforms, producing one standard-normal
  deviate `z0 = sqrt(-2 ln u1) cos(2 pi u2)`; the deviate is abstracted as
  the next element of an ambient stream (`RandState`), since no claim
  depends on its distribution, only on the consumption pattern.
* `Math.sqrt` is a parameter `sqrt : ℚ → ℚ` of the statistics code;
  theorems that need it assume only its strict monotonicity on nonnegatives.
* Unreachable TypeScript non-null assertions (`x!`) are modelled with
  `Option.getD` and a designated junk value.
-/

namespace IskVsVp

/-- Property read `obj[n]` on a JS object used as a string-keyed record:
the first entry with the key (keys are unique, one entry per key). -/
def recordGet {α : Type} (l : List (String × α)) (n : String) : Option α :=
  match l with
  | [] => none
  | e :: t => if e.1 = n then some e.2 else recordGet t n

/-- Property write `obj[n] = v` on a JS object used as a string-keyed record:
an existing key keeps its position and gets the new value, a new key is
appended (string keys enumerate in insertion order). -/
def recordSet {α : Type} (l : List (String × α)) (n : String) (v : α) : List (String × α) :=
  match l with
  | [] => [(n, v)]
  | e :: t => if e.1 = n then (n, v) :: t else e :: recordSet t n v

/-- Configuration of one scenario (src/types.ts, `ScenarioConfig`). -/
structure ScenarioConfig where
  name : String
  balanceWithdrawalRate : ℚ
  profitWithdrawalRate : ℚ
  profitLookbackYears : ℕ
  capitalGainsTax : ℚ
  iskTaxRate : Option ℚ
  iskTaxRateStdDev : Option ℚ
  isISK : Bool
deriving DecidableEq

/-- Input parameters as read by the engine.  src/simulation.ts reads
`development`/`developmentStdDev`; the later revision of src/types.ts
declares a `portfolio` instead, which the engine never reads (spec open
question), so it is omitted here. -/
structure InputParameters where
  initialCapital : ℚ
  startYear : ℤ
  yearsLater : ℤ
  simulationCount : ℕ
  development : ℚ
  developmentStdDev : ℚ
  inflationRate : ℚ
  inflationStdDev : ℚ
  scenarios : List ScenarioConfig
  seed : String
deriving DecidableEq

/-- Per-scenario record of one simulated year (src/types.ts,
`ScenarioYearlyData`). -/
structure ScenarioYearlyData where
  amount : ℚ
  withdrawn : ℚ
  tax : ℚ
  paidTax : ℚ
  liquidValue : ℚ
  taxationDegree : ℚ
  withdrawnReal : ℚ
  withdrawalRate : ℚ
  taxRate : ℚ
  development : ℚ
  inflationRate : ℚ
deriving DecidableEq

/-- Record of one simulated year (src/types.ts, `YearlyData`). -/
structure YearlyData where
  year : ℤ
  development : ℚ
  inflationRate : ℚ
  inflation : ℚ
  scenarios : List (String × ScenarioYearlyData)
deriving DecidableEq

/-- Mutable per-scenario state of one trajectory (src/simulation.ts,
`ScenarioState`). -/
structure ScenarioState where
  amount : ℚ
  cumulativePaidTax : ℚ
  accumulatedRealWithdrawal : ℚ
  currentTaxRate : ℚ
  yearlyAmounts : List ℚ
deriving DecidableEq

/-- End-of-horizon summary of one scenario: exactly the eight fields that
runSingleSimulation populates (the later src/types.ts declares further
fields — maxDrawdown and friends — that the engine never sets). -/
structure ScenarioSummary where
  liquidValue : ℚ
  firstYearLiquidValue : ℚ
  paidTax : ℚ
  taxationDegree : ℚ
  realWithdrawal : ℚ
  firstYearWithdrawal : ℚ
  accumulatedRealWithdrawal : ℚ
  averageTaxRate : ℚ
deriving DecidableEq

/-- Trajectory summary (src/types.ts, `Summary`). -/
structure Summary where
  scenarios : List (String × ScenarioSummary)
  averageInflationRate : ℚ
  averageDevelopment : ℚ
deriving DecidableEq

/-- One full trajectory (src/types.ts, `SimulationResult`). -/
structure SimulationResult where
  summary : Summary
  yearlyData : List YearlyData
deriving DecidableEq

/-- State of the ambient random source (`Math.random`): an abstract stream
of standard-normal deviates and a cursor.  One `randomNormal` call consumes
the two uniforms of one Box–Muller step and advances the cursor by one. -/
structure RandState where
  g : ℕ → ℚ
  k : ℕ

/-- Box–Muller sampler (src/simulation.ts, `randomNormal`): the deviate
`z0` from the two fresh uniform draws is the next stream element. -/
def randomNormal (mean stdDev : ℚ) (s : RandState) : ℚ × RandState :=
  (mean + s.g s.k * stdDev, ⟨s.g, s.k + 1⟩)

/-- Lower clamp of the ISK basis rate (src/simulation.ts, line 13). -/
def ISK_TAX_RATE_MIN : ℚ := 0.0125

/-- Truthiness of `scenario.isISK && scenario.iskTaxRateStdDev`
(src/simulation.ts, line 69): an absent or zero volatility is falsy. -/
def walkActive (s : ScenarioConfig) : Bool :=
  s.isISK && (match s.iskTaxRateStdDev with
    | some sd => sd != 0
    | none => false)

/-- Placeholder for the unreachable non-null assertion
`scenarioStates[scenario.name]!` (every scenario name is initialized). -/
def junkState : ScenarioState := ⟨0, 0, 0, 0, []⟩

/-- Placeholder for the unreachable non-null assertion
`lastYear.scenarios[scenario.name]!`. -/
def junkYearly : ScenarioYearlyData := ⟨0, 0, 0, 0, 0, 0, 0, 0, 0, 0, 0⟩

/-- Step 1 of the scenario evolver (src/simulation.ts, lines 68–75): the
ISK basis-rate random walk, clamped to `[ISK_TAX_RATE_MIN, 1]`, run only
when `scenario.isISK && scenario.iskTaxRateStdDev` is truthy. -/
def stepTaxRate (cfg : ScenarioConfig) (st : ScenarioState) (r : RandState) : ℚ × RandState :=
  if walkActive cfg then
    let p := randomNormal 0 (cfg.iskTaxRateStdDev.getD 0) r
    (max ISK_TAX_RATE_MIN (min 1 (st.currentTaxRate + p.1)), p.2)
  else (st.currentTaxRate, r)

/-- Steps 2–9 of the scenario evolver (src/simulation.ts, lines 77–160),
given the already-updated tax rate: withdrawals, liquidation value, tax,
per-year record, and next-year state.  Divisions are total with `x / 0 = 0`
(the guarded divisions of the source never divide by zero; the unguarded
`withdrawn / cumulativeInflation` is exercised by no claim). -/
def stepCompute (initialCapital : ℚ) (i : ℕ)
    (development inflationRate cumulativeInflation : ℚ)
    (cfg : ScenarioConfig) (st : ScenarioState) (currentTaxRate : ℚ) :
    ScenarioState × ScenarioYearlyData :=
  let balanceWithdrawal := st.amount * cfg.balanceWithdrawalRate
  let profitWithdrawal :=
    if 0 < i ∧ 0 < cfg.profitWithdrawalRate then
      let lookbackYears := min cfg.profitLookbackYears (st.yearlyAmounts.length - 1)
      if 0 < lookbackYears then
        let oldAmount := st.yearlyAmounts.getD (st.yearlyAmounts.length - 1 - lookbackYears) 0
        let totalProfit := st.amount - oldAmount
        let averageAnnualProfit := totalProfit / (lookbackYears : ℚ)
        max 0 (averageAnnualProfit * cfg.profitWithdrawalRate)
      else 0
    else 0
  let withdrawn := balanceWithdrawal + profitWithdrawal
  let withdrawalRate := if 0 < st.amount then withdrawn / st.amount else 0
  let liquidValue :=
    if cfg.isISK then st.amount
    else
      let capitalGain := st.amount - initialCapital
      st.amount - capitalGain * cfg.capitalGainsTax
  let tax :=
    if cfg.isISK then st.amount * currentTaxRate * cfg.capitalGainsTax
    else withdrawn * cfg.capitalGainsTax
  let cumulativePaidTax := st.cumulativePaidTax + tax
  let taxationDegree := if 0 < liquidValue then cumulativePaidTax / liquidValue else 0
  let withdrawnReal := withdrawn / cumulativeInflation
  let accumulatedRealWithdrawal := st.accumulatedRealWithdrawal + withdrawnReal
  let nextAmount :=
    if cfg.isISK then max 0 (st.amount * (1 + development) - withdrawn - tax)
    else max 0 (st.amount * (1 + development) - withdrawn)
  (⟨nextAmount, cumulativePaidTax, accumulatedRealWithdrawal, currentTaxRate,
      st.yearlyAmounts ++ [nextAmount]⟩,
   ⟨st.amount, withdrawn, tax, cumulativePaidTax, liquidValue, taxationDegree,
      withdrawnReal, withdrawalRate, currentTaxRate, development, inflationRate⟩)

/-- Accumulator of the per-year scenario loop. -/
structure YearAcc where
  states : List (String × ScenarioState)
  syd : List (String × ScenarioYearlyData)
  fyd : List (String × ℚ)
  rand : RandState

/-- One iteration of `for (const scenario of params.scenarios)`
(src/simulation.ts, lines 65–161): evolve this scenario, record its yearly
data, capture its first-year real withdrawal when `i == 0`. -/
def processScenario (initialCapital : ℚ) (i : ℕ)
    (development inflationRate cumulativeInflation : ℚ)
    (acc : YearAcc) (cfg : ScenarioConfig) : YearAcc :=
  let st := (recordGet acc.states cfg.name).getD junkState
  let tr := stepTaxRate cfg st acc.rand
  let sd := stepCompute initialCapital i development inflationRate cumulativeInflation
    cfg st tr.1
  { states := recordSet acc.states cfg.name sd.1
    syd := recordSet acc.syd cfg.name sd.2
    fyd := if i = 0 then recordSet acc.fyd cfg.name sd.2.withdrawnReal else acc.fyd
    rand := tr.2 }

/-- Accumulator of the year loop of one trajectory. -/
structure SimAcc where
  states : List (String × ScenarioState)
  cumulativeInflation : ℚ
  fyd : List (String × ℚ)
  yearlyData : List YearlyData
  rand : RandState

/-- One iteration of the year loop (src/simulation.ts, lines 54–170): draw
the shared inflation and development once, compound inflation, evolve every
scenario in configured order, push the year record. -/
def yearStep (p : InputParameters) (i : ℕ) (acc : SimAcc) : SimAcc :=
  let pI := randomNormal p.inflationRate p.inflationStdDev acc.rand
  let pD := randomNormal p.development p.developmentStdDev pI.2
  let cumInfl := acc.cumulativeInflation * (1 + pI.1)
  let ya := p.scenarios.foldl (processScenario p.initialCapital i pD.1 pI.1 cumInfl)
    ⟨acc.states, [], acc.fyd, pD.2⟩
  { states := ya.states
    cumulativeInflation := cumInfl
    fyd := ya.fyd
    yearlyData := acc.yearlyData ++ [⟨p.startYear + i, pD.1, pI.1, cumInfl, ya.syd⟩]
    rand := ya.rand }

/-- Initial per-scenario state (src/simulation.ts, lines 41–49). -/
def initScenarioState (p : InputParameters) (s : ScenarioConfig) : ScenarioState :=
  ⟨p.initialCapital, 0, 0, s.iskTaxRate.getD 0, [p.initialCapital]⟩

/-- Initialization loop building `scenarioStates` (src/simulation.ts,
lines 40–49). -/
def initStates (p : InputParameters) : List (String × ScenarioState) :=
  p.scenarios.foldl (fun m s => recordSet m s.name (initScenarioState p s)) []

/-- Counted form of `for (let i = 0; i < params.yearsLater; i++)`: run the
remaining `n` years starting at year index `i`. -/
def runFrom (p : InputParameters) : ℕ → ℕ → SimAcc → SimAcc
  | _, 0, acc => acc
  | i, n + 1, acc => runFrom p (i + 1) n (yearStep p i acc)

/-- The year loop of one trajectory: state after all
`max 0 params.yearsLater` years (a nonpositive horizon runs zero
iterations). -/
def simulateYears (p : InputParameters) (rand : RandState) : SimAcc :=
  runFrom p 0 p.yearsLater.toNat ⟨initStates p, 1, [], [], rand⟩

/-- Failure of one trajectory run.  `runtimeTypeError` models the TypeError
JavaScript throws when summary construction dereferences a property of
`undefined`; `configError` models the explicit configuration-validation
failure that spec section 7 prescribes (no such validation exists in
src/simulation.ts, so the model never produces it). -/
inductive SimError where
  | configError
  | runtimeTypeError
deriving DecidableEq

/-- Summary of one scenario (src/simulation.ts, lines 182–202). -/
def buildScenarioSummary (p : InputParameters) (acc : SimAcc) (lastYear : YearlyData)
    (sc : ScenarioConfig) : ScenarioSummary :=
  let lastYearData := (recordGet lastYear.scenarios sc.name).getD junkYearly
  let firstYearWithdrawal := (recordGet acc.fyd sc.name).getD 0
  let st := (recordGet acc.states sc.name).getD junkState
  let averageTaxRate :=
    (acc.yearlyData.map (fun y => ((recordGet y.scenarios sc.name).getD junkYearly).taxRate)).sum /
      (acc.yearlyData.length : ℚ)
  ⟨lastYearData.liquidValue, p.initialCapital, lastYearData.paidTax,
    lastYearData.taxationDegree, lastYearData.withdrawnReal, firstYearWithdrawal,
    st.accumulatedRealWithdrawal, averageTaxRate⟩

/-- The scenario-summary loop (src/simulation.ts, lines 181–202). -/
def buildSummaries (p : InputParameters) (acc : SimAcc) (lastYear : YearlyData) :
    List (String × ScenarioSummary) :=
  p.scenarios.foldl (fun m sc => recordSet m sc.name (buildScenarioSummary p acc lastYear sc)) []

/-- Summary construction after the year loop (src/simulation.ts,
lines 172–210).  With an empty trajectory, `yearlyData[length - 1]!` is
`undefined`: the first scenario-summary iteration then throws a TypeError;
with no scenarios the loop body never runs and the function returns an
empty trajectory whose averages are `0/0` (JS `NaN`, modelled as `0`). -/
def buildResult (p : InputParameters) (acc : SimAcc) : Except SimError SimulationResult :=
  match acc.yearlyData.getLast? with
  | some lastYear =>
      let averageInflationRate :=
        (acc.yearlyData.map (·.inflationRate)).sum / (acc.yearlyData.length : ℚ)
      let averageDevelopment :=
        (acc.yearlyData.map (·.development)).sum / (acc.yearlyData.length : ℚ)
      .ok ⟨⟨buildSummaries p acc lastYear, averageInflationRate, averageDevelopment⟩,
        acc.yearlyData⟩
  | none =>
      if p.scenarios.isEmpty then .ok ⟨⟨[], 0, 0⟩, []⟩
      else .error .runtimeTypeError

/-- One trajectory (src/simulation.ts, `runSingleSimulation`). -/
def runSingleSimulation (p : InputParameters) (rand : RandState) :
    Except SimError SimulationResult :=
  buildResult p (simulateYears p rand)

/-- The iteration loop of the Monte Carlo driver, threading the ambient
random stream across trajectories. -/
def runMonteCarloAux (p : InputParameters) : ℕ → RandState → Except SimError (List SimulationResult)
  | 0, _ => .ok []
  | n + 1, rand =>
      match buildResult p (simulateYears p rand) with
      | .error e => .error e
      | .ok r =>
          match runMonteCarloAux p n (simulateYears p rand).rand with
          | .error e => .error e
          | .ok rs => .ok (r :: rs)

/-- Monte Carlo driver (src/simulation.ts, `runMonteCarloSimulation`):
`simulationCount` sequential trajectories over the shared random source.
The advisory `onProgress` callback does not influence the results and is
omitted. -/
def runMonteCarloSimulation (p : InputParameters) (rand : RandState) :
    Except SimError (List SimulationResult) :=
  runMonteCarloAux p p.simulationCount rand

/-- Aggregate of one numeric field (the return of `calculateStats` inside
src/simulation.ts, `calculateStatistics`). -/
structure Stats where
  mean : ℚ
  stdDev : ℚ
  percentile5 : ℚ
  percentile25 : ℚ
  median : ℚ
  percentile75 : ℚ
  percentile95 : ℚ
deriving DecidableEq

/-- Boolean form of the ascending comparator `(a, b) => a - b`. -/
def qle (a b : ℚ) : Bool := decide (a ≤ b)

/-- Nearest-rank percentile index `Math.floor(n * p)`. -/
def pIdx (n : ℕ) (p : ℚ) : ℕ := (Int.floor ((n : ℚ) * p)).toNat

/-- The inner `calculateStats` helper (src/simulation.ts, lines 243–257):
sort ascending, then population mean, population standard deviation, and
nearest-rank percentiles `sorted[Math.floor(n * p)] ?? 0`. -/
def calcStats (sqrt : ℚ → ℚ) (values : List ℚ) : Stats :=
  let sorted := values.mergeSort qle
  let n := sorted.length
  let mean := sorted.sum / (n : ℚ)
  { mean := mean
    stdDev := sqrt ((sorted.map (fun val => (val - mean) ^ 2)).sum / (n : ℚ))
    percentile5 := sorted.getD (pIdx n (5 / 100)) 0
    percentile25 := sorted.getD (pIdx n (25 / 100)) 0
    median := sorted.getD (pIdx n (50 / 100)) 0
    percentile75 := sorted.getD (pIdx n (75 / 100)) 0
    percentile95 := sorted.getD (pIdx n (95 / 100)) 0 }

/-- The seven aggregate summaries of one scenario (the per-scenario entry
of `scenarioStats` in src/simulation.ts, lines 263–321). -/
structure ScenarioStats where
  mean : ScenarioSummary
  stdDev : ScenarioSummary
  percentile5 : ScenarioSummary
  percentile25 : ScenarioSummary
  median : ScenarioSummary
  percentile75 : ScenarioSummary
  percentile95 : ScenarioSummary
deriving DecidableEq

/-- Placeholder for the unreachable non-null assertion
`summaries.map((s) => s.scenarios[scenarioName]!)`. -/
def junkSummary : ScenarioSummary := ⟨0, 0, 0, 0, 0, 0, 0, 0⟩

/-- Per-scenario statistics over the eight summary fields (the field loop
of src/simulation.ts, lines 276–321). -/
def scenarioFieldStats (sqrt : ℚ → ℚ) (summaries : List Summary) (name : String) :
    ScenarioStats :=
  let ss := summaries.map (fun s => (recordGet s.scenarios name).getD junkSummary)
  let sLiquid := calcStats sqrt (ss.map (·.liquidValue))
  let sFirstLiquid := calcStats sqrt (ss.map (·.firstYearLiquidValue))
  let sPaidTax := calcStats sqrt (ss.map (·.paidTax))
  let sTaxDeg := calcStats sqrt (ss.map (·.taxationDegree))
  let sRealW := calcStats sqrt (ss.map (·.realWithdrawal))
  let sFirstW := calcStats sqrt (ss.map (·.firstYearWithdrawal))
  let sAccW := calcStats sqrt (ss.map (·.accumulatedRealWithdrawal))
  let sAvgTax := calcStats sqrt (ss.map (·.averageTaxRate))
  { mean := ⟨sLiquid.mean, sFirstLiquid.mean, sPaidTax.mean, sTaxDeg.mean,
      sRealW.mean, sFirstW.mean, sAccW.mean, sAvgTax.mean⟩
    stdDev := ⟨sLiquid.stdDev, sFirstLiquid.stdDev, sPaidTax.stdDev, sTaxDeg.stdDev,
      sRealW.stdDev, sFirstW.stdDev, sAccW.stdDev, sAvgTax.stdDev⟩
    percentile5 := ⟨sLiquid.percentile5, sFirstLiquid.percentile5, sPaidTax.percentile5,
      sTaxDeg.percentile5, sRealW.percentile5, sFirstW.percentile5, sAccW.percentile5,
      sAvgTax.percentile5⟩
    percentile25 := ⟨sLiquid.percentile25, sFirstLiquid.percentile25, sPaidTax.percentile25,
      sTaxDeg.percentile25, sRealW.percentile25, sFirstW.percentile25, sAccW.percentile25,
      sAvgTax.percentile25⟩
    median := ⟨sLiquid.median, sFirstLiquid.median, sPaidTax.median, sTaxDeg.median,
      sRealW.median, sFirstW.median, sAccW.median, sAvgTax.median⟩
    percentile75 := ⟨sLiquid.percentile75, sFirstLiquid.percentile75, sPaidTax.percentile75,
      sTaxDeg.percentile75, sRealW.percentile75, sFirstW.percentile75, sAccW.percentile75,
      sAvgTax.percentile75⟩
    percentile95 := ⟨sLiquid.percentile95, sFirstLiquid.percentile95, sPaidTax.percentile95,
      sTaxDeg.percentile95, sRealW.percentile95, sFirstW.percentile95, sAccW.percentile95,
      sAvgTax.percentile95⟩ }

/-- Statistics over all trajectories (src/types.ts,
`SimulationStatistics`). -/
structure SimulationStatistics where
  mean : Summary
  stdDev : Summary
  percentile5 : Summary
  percentile25 : Summary
  median : Summary
  percentile75 : Summary
  percentile95 : Summary
deriving DecidableEq

/-- Statistics aggregator (src/simulation.ts, `calculateStatistics`):
scenario names come from the first summary, each field of each scenario is
aggregated by `calcStats`, as are the two shared averages. -/
def calculateStatistics (sqrt : ℚ → ℚ) (results : List SimulationResult) :
    SimulationStatistics :=
  let summaries : List Summary := results.map (·.summary)
  let scenarioNames : List String :=
    match summaries with
    | [] => []
    | s :: _ => s.scenarios.map (·.1)
  let scenarioStats : List (String × ScenarioStats) :=
    scenarioNames.foldl (fun m n => recordSet m n (scenarioFieldStats sqrt summaries n)) []
  let avgInflationStats := calcStats sqrt (summaries.map (·.averageInflationRate))
  let avgDevelopmentStats := calcStats sqrt (summaries.map (·.averageDevelopment))
  { mean := ⟨scenarioStats.map (fun e => (e.1, e.2.mean)),
      avgInflationStats.mean, avgDevelopmentStats.mean⟩
    stdDev := ⟨scenarioStats.map (fun e => (e.1, e.2.stdDev)),
      avgInflationStats.stdDev, avgDevelopmentStats.stdDev⟩
    percentile5 := ⟨scenarioStats.map (fun e => (e.1, e.2.percentile5)),
      avgInflationStats.percentile5, avgDevelopmentStats.percentile5⟩
    percentile25 := ⟨scenarioStats.map (fun e => (e.1, e.2.percentile25)),
      avgInflationStats.percentile25, avgDevelopmentStats.percentile25⟩
    median := ⟨scenarioStats.map (fun e => (e.1, e.2.median)),
      avgInflationStats.median, avgDevelopmentStats.median⟩
    percentile75 := ⟨scenarioStats.map (fun e => (e.1, e.2.percentile75)),
      avgInflationStats.percentile75, avgDevelopmentStats.percentile75⟩
    percentile95 := ⟨scenarioStats.map (fun e => (e.1, e.2.percentile95)),
      avgInflationStats.percentile95, avgDevelopmentStats.percentile95⟩ }

/-- Accessor for the `maxDrawdown` property read by the representative
selector: the summaries produced by src/simulation.ts never set it (only
the later src/types.ts declares it), so the optional access
`?.maxDrawdown ?? 0` always evaluates to 0. -/
def ScenarioSummary.maxDrawdown (_ : ScenarioSummary) : ℚ := 0

/-- One selector metric (src/stores/calculator.ts, lines 99–206). -/
structure Metric where
  values : List ℚ
  median : ℚ
  mean : ℚ
  stdDev : ℚ

/-- The pattern `scenarioNames.reduce((sum, name) => sum + (rec[name]?.f ?? 0), 0)`. -/
def sumOver (names : List String) (scen : List (String × ScenarioSummary))
    (f : ScenarioSummary → ℚ) : ℚ :=
  (names.map (fun n => ((recordGet scen n).map f).getD 0)).sum

/-- One metric of the representative selector: per-trajectory values summed
across scenarios, plus the aggregate median, mean and combined standard
deviation `Math.sqrt(sum of squared per-scenario stdDevs)`
(src/stores/calculator.ts, lines 101–206). -/
def metricOf (sqrt : ℚ → ℚ) (simResults : List SimulationResult)
    (stats : SimulationStatistics) (names : List String) (f : ScenarioSummary → ℚ) : Metric :=
  { values := simResults.map (fun r => sumOver names r.summary.scenarios f)
    median := sumOver names stats.median.scenarios f
    mean := sumOver names stats.mean.scenarios f
    stdDev :=
      sqrt ((names.map (fun n => (((recordGet stats.stdDev.scenarios n).map f).getD 0) ^ 2)).sum) }

/-- The four metrics of the selector, in source order: final liquidation
value, final-year real withdrawal, accumulated real withdrawal, and max
drawdown (src/stores/calculator.ts, lines 101–206). -/
def repMetrics (sqrt : ℚ → ℚ) (simResults : List SimulationResult)
    (stats : SimulationStatistics) (names : List String) : List Metric :=
  [metricOf sqrt simResults stats names (·.liquidValue),
   metricOf sqrt simResults stats names (·.realWithdrawal),
   metricOf sqrt simResults stats names (·.accumulatedRealWithdrawal),
   metricOf sqrt simResults stats names (·.maxDrawdown)]

/-- Squared z-score contribution of one metric for trajectory `idx`
(src/stores/calculator.ts, lines 214–220): the standard deviation is
floored at 1 when not positive, `metric.values[idx]!` is in range for
every visited index. -/
def metricTermSq (m : Metric) (idx : ℕ) : ℚ :=
  let value := m.values.getD idx 0
  let stdDev := if 0 < m.stdDev then m.stdDev else 1
  let normalized := (value - m.median) / stdDev
  normalized * normalized

/-- Summed squared z-score distance of trajectory `idx`; the source takes
`Math.sqrt` of this before comparing. -/
def repDistSq (sqrt : ℚ → ℚ) (simResults : List SimulationResult)
    (stats : SimulationStatistics) (names : List String) (idx : ℕ) : ℚ :=
  ((repMetrics sqrt simResults stats names).map (fun m => metricTermSq m idx)).sum

/-- One iteration of the selection loop (src/stores/calculator.ts,
lines 209–227): `minDistance` starts at `Infinity`, modelled as `none`, so
the first comparison always succeeds; a strict `<` keeps the earliest
minimum. -/
def repStep (sqrt : ℚ → ℚ) (simResults : List SimulationResult)
    (stats : SimulationStatistics) (names : List String)
    (acc : Option ℚ × Option ℕ) (idx : ℕ) : Option ℚ × Option ℕ :=
  let distance := sqrt (repDistSq sqrt simResults stats names idx)
  match acc.1 with
  | none => (some distance, some idx)
  | some minDistance => if distance < minDistance then (some distance, some idx) else acc

/-- Representative-trajectory selector (src/stores/calculator.ts,
`findRepresentativeSimulation`).  The source guard
`!simResults.length || !stats.median.scenarios` reduces to the length
check, a JS object being always truthy; the scenario names are the keys of
the median summary. -/
def findRepresentativeSimulation (sqrt : ℚ → ℚ) (simResults : List SimulationResult)
    (stats : SimulationStatistics) : Option ℕ :=
  if simResults.length = 0 then none
  else
    let scenarioNames : List String := stats.median.scenarios.map (·.1)
    if scenarioNames.length = 0 then none
    else
      ((List.range simResults.length).foldl
        (repStep sqrt simResults stats scenarioNames) (none, none)).2

/-- Deterministic stream: every deviate is `c`. -/
def constStream (c : ℚ) : RandState := ⟨fun _ => c, 0⟩

/-- Stream whose n-th deviate is `n / 100`. -/
def centStream : RandState := ⟨fun n => (n : ℚ) / 100, 0⟩

/-- Deferred-gains (VP) scenario with no withdrawals, capital-gains tax
30 percent. -/
def cfgVP : ScenarioConfig :=
  { name := "VP"
    balanceWithdrawalRate := 0
    profitWithdrawalRate := 0
    profitLookbackYears := 5
    capitalGainsTax := 3 / 10
    iskTaxRate := none
    iskTaxRateStdDev := none
    isISK := false }

/-- Notional-tax (ISK) scenario of the spec's concrete test: basis rate
3 percent, no basis-rate volatility, capital-gains tax 30 percent, no
withdrawals. -/
def cfgISK : ScenarioConfig :=
  { name := "ISK"
    balanceWithdrawalRate := 0
    profitWithdrawalRate := 0
    profitLookbackYears := 5
    capitalGainsTax := 3 / 10
    iskTaxRate := some (3 / 100)
    iskTaxRateStdDev := none
    isISK := true }

/-- Parameters of the spec's concrete ISK scenario (claim C4): one year,
development forced to exactly 0.10 and inflation to 0 by zero volatility. -/
def paramsC4 : InputParameters :=
  { initialCapital := 1000000
    startYear := 0
    yearsLater := 1
    simulationCount := 1
    development := 1 / 10
    developmentStdDev := 0
    inflationRate := 0
    inflationStdDev := 0
    scenarios := [cfgISK]
    seed := "seed"
    }

/-- Parameters of the C1 counterexample: a VP scenario that halves in the
first year, so its second-year balance is below the initial capital. -/
def paramsC1 : InputParameters :=
  { initialCapital := 1000
    startYear := 0
    yearsLater := 2
    simulationCount := 1
    development := -1 / 2
    developmentStdDev := 0
    inflationRate := 0
    inflationStdDev := 0
    scenarios := [cfgVP]
    seed := "seed"
    }

/-- Parameters of the C2 theorem: one VP year whose development is the
ambient draw itself. -/
def paramsC2 : InputParameters :=
  { initialCapital := 1000
    startYear := 0
    yearsLater := 1
    simulationCount := 1
    development := 0
    developmentStdDev := 1
    inflationRate := 0
    inflationStdDev := 0
    scenarios := [cfgVP]
    seed := "42"
    }

/-- ISK scenario "B" with an active basis-rate random walk. -/
def cfgB : ScenarioConfig :=
  { name := "B"
    balanceWithdrawalRate := 0
    profitWithdrawalRate := 0
    profitLookbackYears := 5
    capitalGainsTax := 3 / 10
    iskTaxRate := some (3 / 100)
    iskTaxRateStdDev := some 1
    isISK := true }

/-- ISK scenario "A" without a basis-rate random walk. -/
def cfgAOff : ScenarioConfig :=
  { name := "A"
    balanceWithdrawalRate := 0
    profitWithdrawalRate := 0
    profitLookbackYears := 5
    capitalGainsTax := 3 / 10
    iskTaxRate := some (3 / 100)
    iskTaxRateStdDev := none
    isISK := true }

/-- Scenario "A" with the basis-rate random walk enabled: the only change
against `cfgAOff`. -/
def cfgAOn : ScenarioConfig :=
  { cfgAOff with iskTaxRateStdDev := some 1 }

/-- Parameters of the C3 counterexample, scenario A without the walk. -/
def paramsC3a : InputParameters :=
  { initialCapital := 100
    startYear := 0
    yearsLater := 1
    simulationCount := 1
    development := 0
    developmentStdDev := 0
    inflationRate := 0
    inflationStdDev := 0
    scenarios := [cfgAOff, cfgB]
    seed := "seed"
    }

/-- Parameters of the C3 counterexample, scenario A with the walk: only
scenario A's configuration differs from `paramsC3a`. -/
def paramsC3b : InputParameters :=
  { paramsC3a with scenarios := [cfgAOn, cfgB] }

/-- Parameters of the C6 counterexample: a certain inflation draw of -2
makes the cumulative inflation factor negative. -/
def paramsC6 : InputParameters :=
  { initialCapital := 1000
    startYear := 0
    yearsLater := 1
    simulationCount := 1
    development := 0
    developmentStdDev := 0
    inflationRate := -2
    inflationStdDev := 0
    scenarios := [cfgVP]
    seed := "seed"
    }

/-- Parameters of the C8 counterexample: a zero-year horizon with one
scenario configured. -/
def paramsC8 : InputParameters :=
  { initialCapital := 1000
    startYear := 0
    yearsLater := 0
    simulationCount := 1
    development := 0
    developmentStdDev := 0
    inflationRate := 0
    inflationStdDev := 0
    scenarios := [cfgVP]
    seed := "seed"
    }

/-- Non-ISK scenario with a configured `iskTaxRate` (the optional field is
declared "only for ISK scenarios" but nothing prevents setting it). -/
def cfgVPRate : ScenarioConfig :=
  { cfgVP with iskTaxRate := some (1 / 2) }

/-- Parameters of the C10 counterexample: one year of a non-ISK scenario
carrying a configured `iskTaxRate` of 0.5. -/
def paramsC10 : InputParameters :=
  { initialCapital := 1000
    startYear := 0
    yearsLater := 1
    simulationCount := 1
    development := 0
    developmentStdDev := 0
    inflationRate := 0
    inflationStdDev := 0
    scenarios := [cfgVPRate]
    seed := "seed"
    }

/-- Chain of the five percentile aggregates of one numeric field. -/
def chainLe (a b c d e : ℚ) : Prop := a ≤ b ∧ b ≤ c ∧ c ≤ d ∧ d ≤ e

/-- Percentile chains of every scenario-summary field. -/
def summaryChain (s5 s25 sm s75 s95 : ScenarioSummary) : Prop :=
  chainLe s5.liquidValue s25.liquidValue sm.liquidValue s75.liquidValue s95.liquidValue ∧
  chainLe s5.firstYearLiquidValue s25.firstYearLiquidValue sm.firstYearLiquidValue
    s75.firstYearLiquidValue s95.firstYearLiquidValue ∧
  chainLe s5.paidTax s25.paidTax sm.paidTax s75.paidTax s95.paidTax ∧
  chainLe s5.taxationDegree s25.taxationDegree sm.taxationDegree s75.taxationDegree
    s95.taxationDegree ∧
  chainLe s5.realWithdrawal s25.realWithdrawal sm.realWithdrawal s75.realWithdrawal
    s95.realWithdrawal ∧
  chainLe s5.firstYearWithdrawal s25.firstYearWithdrawal sm.firstYearWithdrawal
    s75.firstYearWithdrawal s95.firstYearWithdrawal ∧
  chainLe s5.accumulatedRealWithdrawal s25.accumulatedRealWithdrawal
    sm.accumulatedRealWithdrawal s75.accumulatedRealWithdrawal s95.accumulatedRealWithdrawal ∧
  chainLe s5.averageTaxRate s25.averageTaxRate sm.averageTaxRate s75.averageTaxRate
    s95.averageTaxRate

/-- Concrete one-trajectory result used by aggregate witnesses. -/
def resW : SimulationResult := ⟨⟨[], 0, 0⟩, []⟩

def statesTailGood (states : List (String × ScenarioState)) : Prop :=
  ∀ e ∈ states, ∀ x ∈ e.2.yearlyAmounts.tail, 0 ≤ x

def statesNonneg (states : List (String × ScenarioState)) : Prop :=
  ∀ e ∈ states, 0 ≤ e.2.amount

def statesCover (p : InputParameters) (states : List (String × ScenarioState)) : Prop :=
  ∀ e ∈ states, ∃ c ∈ p.scenarios, c.name = e.1

def sydNonneg (syd : List (String × ScenarioYearlyData)) : Prop :=
  ∀ e ∈ syd, 0 ≤ e.2.amount

/-- Agreement of two string-keyed records on every key except `n`. -/
def agreeExcept {α : Type} (n : String) (l l' : List (String × α)) : Prop :=
  ∀ m : String, m ≠ n → recordGet l m = recordGet l' m

/-- Relation between two scenario lists that differ at most in the
configurations named `n`, and only in ways that preserve whether the
tax-rate random walk draws from the stream. -/
def cfgRel (n : String) (c1 c2 : ScenarioConfig) : Prop :=
  c1.name = c2.name ∧ (c1.name ≠ n → c1 = c2) ∧ walkActive c1 = walkActive c2

/-- Relation between the scenario-loop accumulators of two runs whose
configurations differ only at the scenario named `n`. -/
def yearAccRel (n : String) (a b : YearAcc) : Prop :=
  a.rand = b.rand ∧ agreeExcept n a.states b.states ∧ agreeExcept n a.syd b.syd ∧
  agreeExcept n a.fyd b.fyd

/-- Relation between two year records that agree on everything except the
scenario named `n`. -/
def ydRel (n : String) (y1 y2 : YearlyData) : Prop :=
  y1.year = y2.year ∧ y1.development = y2.development ∧ y1.inflationRate = y2.inflationRate ∧
  y1.inflation = y2.inflation ∧ agreeExcept n y1.scenarios y2.scenarios

/-- Relation between the trajectory accumulators of two runs whose
configurations differ only at the scenario named `n`. -/
def simAccRel (n : String) (a b : SimAcc) : Prop :=
  a.rand = b.rand ∧ a.cumulativeInflation = b.cumulativeInflation ∧
  agreeExcept n a.states b.states ∧ agreeExcept n a.fyd b.fyd ∧
  List.Forall₂ (ydRel n) a.yearlyData b.yearlyData

/-- Per-scenario summary entry of a trajectory outcome, `none` when the
run failed. -/
def summaryAt (e : Except SimError SimulationResult) (m : String) :
    Option (Option ScenarioSummary) :=
  e.toOption.map (fun r => recordGet r.summary.scenarios m)

/-- State read by one scenario-evolver step. -/
def pcSt (cfg : ScenarioConfig) (acc : YearAcc) : ScenarioState :=
  (recordGet acc.states cfg.name).getD junkState

/-- Tax-rate update of one scenario-evolver step. -/
def pcTr (cfg : ScenarioConfig) (acc : YearAcc) : ℚ × RandState :=
  stepTaxRate cfg (pcSt cfg acc) acc.rand

/-- State written by one scenario-evolver step. -/
def pcW (ic : ℚ) (i : ℕ) (dev infl cum : ℚ) (cfg : ScenarioConfig) (acc : YearAcc) :
    ScenarioState :=
  (stepCompute ic i dev infl cum cfg (pcSt cfg acc) (pcTr cfg acc).1).1

/-- Year record written by one scenario-evolver step. -/
def pcD (ic : ℚ) (i : ℕ) (dev infl cum : ℚ) (cfg : ScenarioConfig) (acc : YearAcc) :
    ScenarioYearlyData :=
  (stepCompute ic i dev infl cum cfg (pcSt cfg acc) (pcTr cfg acc).1).2

/-- Random-source state after one scenario-evolver step. -/
def pcR (cfg : ScenarioConfig) (acc : YearAcc) : RandState :=
  (pcTr cfg acc).2

/-- Scenario B with only its capital-gains tax changed: the walk stays
active, so the stream consumption pattern is unchanged. -/
def cfgB2 : ScenarioConfig := { cfgB with capitalGainsTax := 1 / 2 }

/-- Summary shape used by selector witnesses: one scenario named "A". -/
def sumW : Summary := ⟨[("A", junkSummary)], 0, 0⟩

/-- Statistics used by selector witnesses. -/
def statsW : SimulationStatistics := ⟨sumW, sumW, sumW, sumW, sumW, sumW, sumW⟩

/-- Invariant carried through the year loop for one fixed scenario
configuration: its state entry satisfies `S` at the current year count,
one year record exists per elapsed year, and every recorded entry of the
scenario satisfies `D` at its year index. -/
def perCfgInv (_p : InputParameters) (cfg : ScenarioConfig) (S : ℕ → ScenarioState → Prop)
    (D : ℕ → ScenarioYearlyData → Prop) (i : ℕ) (acc : SimAcc) : Prop :=
  (∃ st, recordGet acc.states cfg.name = some st ∧ S i st) ∧
  acc.yearlyData.length = i ∧
  ∀ j yd, acc.yearlyData[j]? = some yd →
    ∀ d, recordGet yd.scenarios cfg.name = some d → D j d

/-- Projection used to tell two Monte Carlo outcomes apart: the shared
development draws of the first trajectory. -/
def devOf (e : Except SimError (List SimulationResult)) : List ℚ :=
  match e with
  | .ok (r :: _) => r.yearlyData.map (·.development)
  | _ => []

theorem mcDevZero : devOf (runMonteCarloSimulation paramsC2 (constStream 0)) = [0] := by
  simp [devOf, runMonteCarloSimulation, runMonteCarloAux, runSingleSimulation, buildResult,
    simulateYears, runFrom, yearStep, processScenario, stepTaxRate, stepCompute,
    randomNormal, initStates, initScenarioState, paramsC2, cfgVP, walkActive,
    recordGet, recordSet, junkState, constStream, buildSummaries, buildScenarioSummary]

theorem mcDevOne : devOf (runMonteCarloSimulation paramsC2 (constStream 1)) = [1] := by
  simp [devOf, runMonteCarloSimulation, runMonteCarloAux, runSingleSimulation, buildResult,
    simulateYears, runFrom, yearStep, processScenario, stepTaxRate, stepCompute,
    randomNormal, initStates, initScenarioState, paramsC2, cfgVP, walkActive,
    recordGet, recordSet, junkState, constStream, buildSummaries, buildScenarioSummary]

/-- Claim C2 (code bug): the engine draws from the ambient unseeded
`Math.random` stream and never reads `params.seed`.  Concretely, replacing
the seed of `paramsC2` by any string leaves the Monte Carlo output
unchanged over any ambient stream, while keeping the seed "42" fixed and
varying only the ambient stream changes the trajectory list — so equal
seeds and parameters do not reproduce trajectories. -/
theorem C2_seed_not_reproducible :
    (∀ (s : String) (r : RandState),
        runMonteCarloSimulation { paramsC2 with seed := s } r =
          runMonteCarloSimulation paramsC2 r) ∧
    runMonteCarloSimulation paramsC2 (constStream 0) ≠
      runMonteCarloSimulation paramsC2 (constStream 1) := by
  refine ⟨fun _ _ => rfl, fun h => ?_⟩
  have h2 := mcDevZero
  rw [h, mcDevOne] at h2
  exact absurd (List.head_eq_of_cons_eq h2) (by norm_num)

/-- Claim C4: with initial capital 1,000,000, a one-year horizon, zero
withdrawal rates, development forced to exactly 0.10 and inflation to 0 by
zero volatility, a notional-tax scenario with basis rate 0.03, no basis
rate volatility and capital-gains tax 0.30 records a tax of 9,000 in the
simulated year and carries an end-of-year balance of
max(0, 1,000,000 × 1.10 − 0 − 9,000) = 1,091,000, whatever the ambient
random stream. -/
theorem C4_concrete_isk_year (g : ℕ → ℚ) (k : ℕ) :
    ((simulateYears paramsC4 ⟨g, k⟩).yearlyData.map
        (fun y => (recordGet y.scenarios "ISK").map (·.tax))) = [some 9000] ∧
    ((recordGet (simulateYears paramsC4 ⟨g, k⟩).states "ISK").map (·.amount)) =
      some 1091000 := by
  constructor <;>
    simp [simulateYears, runFrom, yearStep, processScenario, stepTaxRate, stepCompute,
      randomNormal, initStates, initScenarioState, paramsC4, cfgISK, walkActive,
      recordGet, recordSet, junkState, ISK_TAX_RATE_MIN] <;> norm_num

/-- Claim C1 counterexample: in a deferred-gains scenario whose balance
halves to 500 below the initial capital 1,000, the recorded liquidation
value of the second year is 500 − (500 − 1000) × 0.30 = 650, not the
claimed 500 − max(0, 500 − 1000) × 0.30 = 500: the unrealized loss is not
floored at zero, so the liquidation value exceeds the balance. -/
theorem C1_counterexample :
    ((simulateYears paramsC1 (constStream 0)).yearlyData.map
        (fun y => (recordGet y.scenarios "VP").map (fun d => (d.amount, d.liquidValue)))) =
      [some (1000, 1000), some (500, 650)] ∧
    (650 : ℚ) ≠ 500 - max 0 ((500 : ℚ) - 1000) * (3 / 10) := by
  constructor
  · simp [simulateYears, runFrom, yearStep, processScenario, stepTaxRate, stepCompute,
      randomNormal, initStates, initScenarioState, paramsC1, cfgVP, walkActive,
      recordGet, recordSet, junkState, constStream]
    norm_num
  · norm_num

/-- Claim C3 counterexample: `paramsC3a` and `paramsC3b` differ only in
scenario A's configuration (its ISK basis-rate random walk is toggled on),
yet over the same ambient stream scenario B's recorded tax rate changes
from 0.05 to 0.06, because A's extra walk draw shifts the shared stream
that B's walk reads next. -/
theorem C3_counterexample :
    paramsC3b = { paramsC3a with scenarios := [cfgAOn, cfgB] } ∧
    cfgAOn = { cfgAOff with iskTaxRateStdDev := some 1 } ∧
    ((simulateYears paramsC3a centStream).yearlyData.map
        (fun y => (recordGet y.scenarios "B").map (·.taxRate))) = [some (1 / 20)] ∧
    ((simulateYears paramsC3b centStream).yearlyData.map
        (fun y => (recordGet y.scenarios "B").map (·.taxRate))) = [some (3 / 50)] ∧
    (1 / 20 : ℚ) ≠ 3 / 50 := by
  refine ⟨rfl, rfl, ?_, ?_, by norm_num⟩ <;>
    simp [simulateYears, runFrom, yearStep, processScenario, stepTaxRate, stepCompute,
      randomNormal, initStates, initScenarioState, paramsC3a, paramsC3b, cfgAOff, cfgAOn,
      cfgB, walkActive, recordGet, recordSet, junkState, centStream, ISK_TAX_RATE_MIN] <;>
    norm_num

/-- Claim C6 counterexample: a certain inflation draw of −2 (mean −2,
volatility 0) makes the recorded cumulative inflation factor of the first
year equal to 1 × (1 + (−2)) = −1, which is not strictly positive and is a
strict decrease from the initial factor 1 — the code clamps neither. -/
theorem C6_counterexample :
    ((simulateYears paramsC6 (constStream 0)).yearlyData.map (·.inflation)) = [(-1 : ℚ)] ∧
    ¬ (0 : ℚ) < -1 ∧ (-1 : ℚ) < 1 := by
  refine ⟨?_, by norm_num, by norm_num⟩
  simp [simulateYears, runFrom, yearStep, processScenario, stepTaxRate, stepCompute,
    randomNormal, initStates, initScenarioState, paramsC6, cfgVP, walkActive,
    recordGet, recordSet, junkState, constStream]
  norm_num

/-- Claim C8 counterexample: with a zero-year horizon and one configured
scenario the runner reaches summary construction without any validation
and aborts with the modelled runtime TypeError (from dereferencing the
undefined last element of the empty trajectory), which is not a
configuration error. -/
theorem C8_counterexample :
    runSingleSimulation paramsC8 (constStream 0) = .error .runtimeTypeError ∧
    (Except.error SimError.runtimeTypeError : Except SimError SimulationResult) ≠
      .error .configError :=
  ⟨rfl, by simp⟩

/-- Claim C8 (amended): for every parameter value with a nonpositive
horizon and at least one scenario, the runner performs no configuration
check; the year loop runs zero times and summary construction fails with
the runtime TypeError — it never returns an empty trajectory, but the
failure is not a configuration error. -/
theorem C8_no_validation_runtime_error (p : InputParameters) (r : RandState)
    (hy : p.yearsLater ≤ 0) (hs : p.scenarios ≠ []) :
    runSingleSimulation p r = .error .runtimeTypeError := by
  have h0 : p.yearsLater.toNat = 0 := Int.toNat_of_nonpos hy
  simp [runSingleSimulation, simulateYears, h0, runFrom, buildResult, hs]

/-- Witness for C8: the amended statement applied to `paramsC8`. -/
theorem C8_no_validation_runtime_error_witness :
    paramsC8.yearsLater ≤ 0 ∧ paramsC8.scenarios ≠ [] ∧
    runSingleSimulation paramsC8 (constStream 0) = .error .runtimeTypeError :=
  ⟨by norm_num [paramsC8], by simp [paramsC8],
    C8_no_validation_runtime_error paramsC8 (constStream 0) (by norm_num [paramsC8])
      (by simp [paramsC8])⟩

/-- Claim C10 counterexample: a non-ISK scenario that carries a configured
`iskTaxRate` of 0.5 records a tax rate of 0.5 in its simulated year, not
the claimed 0: the initial rate is `scenario.iskTaxRate ?? 0`, which is
zero only when the optional field is absent. -/
theorem C10_counterexample :
    cfgVPRate.isISK = false ∧ cfgVPRate.iskTaxRate = some (1 / 2) ∧
    ((simulateYears paramsC10 (constStream 0)).yearlyData.map
        (fun y => (recordGet y.scenarios "VP").map (·.taxRate))) = [some (1 / 2)] ∧
    (1 / 2 : ℚ) ≠ 0 := by
  refine ⟨rfl, rfl, ?_, by norm_num⟩
  simp [simulateYears, runFrom, yearStep, processScenario, stepTaxRate, stepCompute,
    randomNormal, initStates, initScenarioState, paramsC10, cfgVPRate, cfgVP, walkActive,
    recordGet, recordSet, junkState, constStream]

theorem recordGet_recordSet_self {α : Type} (l : List (String × α)) (n : String) (v : α) :
    recordGet (recordSet l n v) n = some v := by
  induction l with
  | nil => simp [recordGet, recordSet]
  | cons e t ih => by_cases h : e.1 = n <;> simp [recordGet, recordSet, h, ih]

theorem recordGet_recordSet_ne {α : Type} (l : List (String × α)) (n m : String) (v : α)
    (h : m ≠ n) : recordGet (recordSet l n v) m = recordGet l m := by
  have hn : ¬ n = m := fun hh => h hh.symm
  induction l with
  | nil => simp [recordGet, recordSet, hn]
  | cons e t ih =>
      by_cases he : e.1 = n
      · have hem : ¬ e.1 = m := by rw [he]; exact hn
        simp [recordGet, recordSet, he, hn, hem]
      · simp [recordGet, recordSet, he, ih]

theorem recordGet_map {α β : Type} (f : α → β) (l : List (String × α)) (n : String) :
    recordGet (l.map (fun e => (e.1, f e.2))) n = (recordGet l n).map f := by
  induction l with
  | nil => rfl
  | cons e t ih => by_cases h : e.1 = n <;> simp [recordGet, h, ih]

theorem recordGet_foldl_keyed {β : Type} (F : String → β) (names : List String)
    (m₀ : List (String × β)) (h₀ : ∀ n v, recordGet m₀ n = some v → v = F n) :
    ∀ n v, recordGet (names.foldl (fun m x => recordSet m x (F x)) m₀) n = some v → v = F n := by
  induction names generalizing m₀ with
  | nil => exact h₀
  | cons x t ih =>
      intro n v h
      refine ih (recordSet m₀ x (F x)) ?_ n v h
      intro n v hg
      by_cases hx : n = x
      · subst hx
        rw [recordGet_recordSet_self] at hg
        exact (Option.some.inj hg).symm
      · rw [recordGet_recordSet_ne _ _ _ _ hx] at hg
        exact h₀ _ _ hg

theorem qle_trans : ∀ (a b c : ℚ), qle a b = true → qle b c = true → qle a c = true := by
  intro a b c hab hbc
  simp only [qle, decide_eq_true_eq] at *
  exact le_trans hab hbc

theorem qle_total : ∀ (a b : ℚ), (qle a b || qle b a) = true := by
  intro a b
  simp only [qle, Bool.or_eq_true, decide_eq_true_eq]
  exact le_total a b

theorem sorted_getD_le (l : List ℚ) (i j : ℕ) (hij : i ≤ j) (hj : j < (l.mergeSort qle).length) :
    (l.mergeSort qle).getD i 0 ≤ (l.mergeSort qle).getD j 0 := by
  have hi : i < (l.mergeSort qle).length := lt_of_le_of_lt hij hj
  rcases lt_or_eq_of_le hij with h | h
  · have hp := List.sorted_mergeSort qle_trans qle_total l
    rw [List.pairwise_iff_get] at hp
    have hg := hp ⟨i, hi⟩ ⟨j, hj⟩ h
    simp only [qle, decide_eq_true_eq] at hg
    rw [List.getD_eq_getElem?_getD, List.getD_eq_getElem?_getD,
      List.getElem?_eq_getElem hi, List.getElem?_eq_getElem hj]
    simpa [List.get_eq_getElem] using hg
  · subst h; rfl

theorem pIdx_mono (n : ℕ) (p q : ℚ) (h : p ≤ q) : pIdx n p ≤ pIdx n q :=
  Int.toNat_le_toNat (Int.floor_le_floor (mul_le_mul_of_nonneg_left h (by positivity)))

theorem pIdx_lt (n : ℕ) (hn : 0 < n) (p : ℚ) (hp : p < 1) : pIdx n p < n := by
  have hf : Int.floor ((n : ℚ) * p) < (n : ℤ) := by
    rw [Int.floor_lt]
    push_cast
    calc (n : ℚ) * p < (n : ℚ) * 1 :=
          mul_lt_mul_of_pos_left hp (by exact_mod_cast hn)
      _ = (n : ℚ) := mul_one _
  rcases le_or_lt 0 (Int.floor ((n : ℚ) * p)) with h0 | h0
  · exact (Int.toNat_lt h0).mpr hf
  · rw [pIdx, Int.toNat_of_nonpos (le_of_lt h0)]
    exact hn

theorem calcStats_chain (sqrt : ℚ → ℚ) (values : List ℚ) (hv : values ≠ []) :
    (calcStats sqrt values).percentile5 ≤ (calcStats sqrt values).percentile25 ∧
    (calcStats sqrt values).percentile25 ≤ (calcStats sqrt values).median ∧
    (calcStats sqrt values).median ≤ (calcStats sqrt values).percentile75 ∧
    (calcStats sqrt values).percentile75 ≤ (calcStats sqrt values).percentile95 := by
  have hn : 0 < (values.mergeSort qle).length := by
    rw [List.length_mergeSort]
    exact List.length_pos.mpr hv
  have hb : ∀ p : ℚ, p < 1 →
      pIdx (values.mergeSort qle).length p < (values.mergeSort qle).length :=
    fun p hp => pIdx_lt _ hn p hp
  simp only [calcStats]
  refine ⟨?_, ?_, ?_, ?_⟩ <;>
    exact sorted_getD_le _ _ _ (pIdx_mono _ _ _ (by norm_num)) (hb _ (by norm_num))

theorem map_ne_nil {α β : Type} (f : α → β) (l : List α) (h : l ≠ []) : l.map f ≠ [] := by
  intro hh
  exact h (List.map_eq_nil_iff.mp hh)

theorem calcStats_chainLe (sqrt : ℚ → ℚ) (values : List ℚ) (hv : values ≠ []) :
    chainLe (calcStats sqrt values).percentile5 (calcStats sqrt values).percentile25
      (calcStats sqrt values).median (calcStats sqrt values).percentile75
      (calcStats sqrt values).percentile95 :=
  calcStats_chain sqrt values hv

/-- Claim C7: for every nonempty result list, every scenario-summary field
and both shared-average fields of the computed statistics satisfy
percentile5 ≤ percentile25 ≤ median ≤ percentile75 ≤ percentile95; the
nearest-rank index `Math.floor(n * p)` stays within `[0, n - 1]`, so the
`?? 0` fallback is never taken. -/
theorem C7_percentile_ordering (sqrt : ℚ → ℚ) (results : List SimulationResult)
    (hr : results ≠ []) :
    (∀ name s5 s25 sm s75 s95,
        recordGet (calculateStatistics sqrt results).percentile5.scenarios name = some s5 →
        recordGet (calculateStatistics sqrt results).percentile25.scenarios name = some s25 →
        recordGet (calculateStatistics sqrt results).median.scenarios name = some sm →
        recordGet (calculateStatistics sqrt results).percentile75.scenarios name = some s75 →
        recordGet (calculateStatistics sqrt results).percentile95.scenarios name = some s95 →
        summaryChain s5 s25 sm s75 s95) ∧
    chainLe (calculateStatistics sqrt results).percentile5.averageInflationRate
      (calculateStatistics sqrt results).percentile25.averageInflationRate
      (calculateStatistics sqrt results).median.averageInflationRate
      (calculateStatistics sqrt results).percentile75.averageInflationRate
      (calculateStatistics sqrt results).percentile95.averageInflationRate ∧
    chainLe (calculateStatistics sqrt results).percentile5.averageDevelopment
      (calculateStatistics sqrt results).percentile25.averageDevelopment
      (calculateStatistics sqrt results).median.averageDevelopment
      (calculateStatistics sqrt results).percentile75.averageDevelopment
      (calculateStatistics sqrt results).percentile95.averageDevelopment := by
  have hsum : results.map (·.summary) ≠ [] := map_ne_nil _ _ hr
  refine ⟨?_, ?_, ?_⟩
  · intro name s5 s25 sm s75 s95 h5 h25 hm h75 h95
    simp only [calculateStatistics, recordGet_map] at h5 h25 hm h75 h95
    obtain ⟨st5, hst5, hv5⟩ := Option.map_eq_some'.mp h5
    obtain ⟨st25, hst25, hv25⟩ := Option.map_eq_some'.mp h25
    obtain ⟨stm, hstm, hvm⟩ := Option.map_eq_some'.mp hm
    obtain ⟨st75, hst75, hv75⟩ := Option.map_eq_some'.mp h75
    obtain ⟨st95, hst95, hv95⟩ := Option.map_eq_some'.mp h95
    have h0 : ∀ (n : String) (v : ScenarioStats), recordGet [] n = some v →
        v = scenarioFieldStats sqrt (results.map (·.summary)) n := by
      intro n v hv
      simp [recordGet] at hv
    have e5 := recordGet_foldl_keyed _ _ _ h0 name st5 hst5
    have e25 := recordGet_foldl_keyed _ _ _ h0 name st25 hst25
    have em := recordGet_foldl_keyed _ _ _ h0 name stm hstm
    have e75 := recordGet_foldl_keyed _ _ _ h0 name st75 hst75
    have e95 := recordGet_foldl_keyed _ _ _ h0 name st95 hst95
    subst hv5 hv25 hvm hv75 hv95
    subst e5 e25 em e75 e95
    have hss : (results.map (·.summary)).map
        (fun s => (recordGet s.scenarios name).getD junkSummary) ≠ [] := map_ne_nil _ _ hsum
    simp only [scenarioFieldStats, summaryChain]
    exact ⟨calcStats_chainLe sqrt _ (map_ne_nil _ _ hss),
      calcStats_chainLe sqrt _ (map_ne_nil _ _ hss),
      calcStats_chainLe sqrt _ (map_ne_nil _ _ hss),
      calcStats_chainLe sqrt _ (map_ne_nil _ _ hss),
      calcStats_chainLe sqrt _ (map_ne_nil _ _ hss),
      calcStats_chainLe sqrt _ (map_ne_nil _ _ hss),
      calcStats_chainLe sqrt _ (map_ne_nil _ _ hss),
      calcStats_chainLe sqrt _ (map_ne_nil _ _ hss)⟩
  · simp only [calculateStatistics]
    exact calcStats_chainLe sqrt _ (map_ne_nil _ _ hsum)
  · simp only [calculateStatistics]
    exact calcStats_chainLe sqrt _ (map_ne_nil _ _ hsum)

/-- Witness for C7: the ordering applied to a concrete one-element result
list, with the identity function standing in for `Math.sqrt`. -/
theorem C7_percentile_ordering_witness :
    ([resW] : List SimulationResult) ≠ [] ∧
    chainLe (calculateStatistics id [resW]).percentile5.averageInflationRate
      (calculateStatistics id [resW]).percentile25.averageInflationRate
      (calculateStatistics id [resW]).median.averageInflationRate
      (calculateStatistics id [resW]).percentile75.averageInflationRate
      (calculateStatistics id [resW]).percentile95.averageInflationRate :=
  ⟨by simp, (C7_percentile_ordering id [resW] (by simp)).2.1⟩

theorem recordGet_mem {α : Type} (l : List (String × α)) (n : String) (v : α)
    (h : recordGet l n = some v) : (n, v) ∈ l := by
  induction l with
  | nil => simp [recordGet] at h
  | cons e t ih =>
      by_cases he : e.1 = n
      · simp only [recordGet, he, if_pos] at h
        obtain rfl := Option.some.inj h
        subst he
        exact List.mem_cons_self e t
      · simp only [recordGet, he, if_neg, not_false_iff] at h
        exact List.mem_cons_of_mem _ (ih h)

theorem mem_recordSet_weak {α : Type} (l : List (String × α)) (n : String) (v : α)
    (e : String × α) (h : e ∈ recordSet l n v) : e = (n, v) ∨ e ∈ l := by
  induction l with
  | nil => simpa [recordSet] using h
  | cons a t ih =>
      by_cases ha : a.1 = n
      · simp only [recordSet, ha, if_pos] at h
        rcases List.mem_cons.mp h with h | h
        · exact Or.inl h
        · exact Or.inr (List.mem_cons_of_mem _ h)
      · simp only [recordSet, ha, if_neg, not_false_iff] at h
        rcases List.mem_cons.mp h with h | h
        · exact Or.inr (h ▸ List.mem_cons_self _ _)
        · rcases ih h with h | h
          · exact Or.inl h
          · exact Or.inr (List.mem_cons_of_mem _ h)

theorem recordGet_foldl_writes_ne {β γ : Type} (key : γ → String) (G : γ → β)
    (cs : List γ) (m₀ : List (String × β)) (n : String) (h : ∀ c ∈ cs, key c ≠ n) :
    recordGet (cs.foldl (fun m c => recordSet m (key c) (G c)) m₀) n = recordGet m₀ n := by
  induction cs generalizing m₀ with
  | nil => rfl
  | cons c t ih =>
      rw [List.foldl_cons, ih _ (fun x hx => h x (List.mem_cons_of_mem _ hx))]
      exact recordGet_recordSet_ne _ _ _ _ (fun hh => h c (List.mem_cons_self _ _) hh.symm)

theorem nodup_split (cfg : ScenarioConfig) (l : List ScenarioConfig) (hmem : cfg ∈ l)
    (hnodup : (l.map (·.name)).Nodup) :
    ∃ l1 l2, l = l1 ++ cfg :: l2 ∧ (∀ c ∈ l1, c.name ≠ cfg.name) ∧
      (∀ c ∈ l2, c.name ≠ cfg.name) := by
  obtain ⟨l1, l2, rfl⟩ := List.append_of_mem hmem
  refine ⟨l1, l2, rfl, ?_, ?_⟩
  · intro c hc hname
    rw [List.map_append, List.map_cons] at hnodup
    have hd := List.disjoint_of_nodup_append hnodup
    exact hd (List.mem_map_of_mem _ hc) (by rw [hname]; exact List.mem_cons_self _ _)
  · intro c hc hname
    rw [List.map_append, List.map_cons] at hnodup
    have h2 := (List.nodup_append.mp hnodup).2.1
    rw [List.nodup_cons] at h2
    exact h2.1 (by rw [← hname]; exact List.mem_map_of_mem _ hc)

theorem fold_process_preserves (ic : ℚ) (i : ℕ) (dev infl cum : ℚ)
    (cs : List ScenarioConfig) (acc : YearAcc) (n : String)
    (h : ∀ c ∈ cs, c.name ≠ n) :
    recordGet (cs.foldl (processScenario ic i dev infl cum) acc).states n =
        recordGet acc.states n ∧
    recordGet (cs.foldl (processScenario ic i dev infl cum) acc).syd n =
        recordGet acc.syd n ∧
    recordGet (cs.foldl (processScenario ic i dev infl cum) acc).fyd n =
        recordGet acc.fyd n := by
  induction cs generalizing acc with
  | nil => exact ⟨rfl, rfl, rfl⟩
  | cons c t ih =>
      have hc : c.name ≠ n := h c (List.mem_cons_self _ _)
      have ht : ∀ x ∈ t, x.name ≠ n := fun x hx => h x (List.mem_cons_of_mem _ hx)
      rw [List.foldl_cons]
      obtain ⟨hs, hy, hf⟩ := ih (processScenario ic i dev infl cum acc c) ht
      refine ⟨?_, ?_, ?_⟩
      · rw [hs]
        exact recordGet_recordSet_ne _ _ _ _ (fun hh => hc hh.symm)
      · rw [hy]
        exact recordGet_recordSet_ne _ _ _ _ (fun hh => hc hh.symm)
      · rw [hf]
        show recordGet (if i = 0 then _ else _) n = _
        split
        · exact recordGet_recordSet_ne _ _ _ _ (fun hh => hc hh.symm)
        · rfl

theorem stepTaxRate_inactive (cfg : ScenarioConfig) (st : ScenarioState) (r : RandState)
    (hwalk : walkActive cfg = false) : stepTaxRate cfg st r = (st.currentTaxRate, r) := by
  simp [stepTaxRate, hwalk]

theorem stepCompute_state_taxRate (ic : ℚ) (i : ℕ) (dev infl cum : ℚ)
    (cfg : ScenarioConfig) (st : ScenarioState) (tr : ℚ) :
    (stepCompute ic i dev infl cum cfg st tr).1.currentTaxRate = tr := rfl

theorem stepCompute_data_taxRate (ic : ℚ) (i : ℕ) (dev infl cum : ℚ)
    (cfg : ScenarioConfig) (st : ScenarioState) (tr : ℚ) :
    (stepCompute ic i dev infl cum cfg st tr).2.taxRate = tr := rfl

theorem stepCompute_data_amount (ic : ℚ) (i : ℕ) (dev infl cum : ℚ)
    (cfg : ScenarioConfig) (st : ScenarioState) (tr : ℚ) :
    (stepCompute ic i dev infl cum cfg st tr).2.amount = st.amount := rfl

theorem stepCompute_data_liquidValue (ic : ℚ) (i : ℕ) (dev infl cum : ℚ)
    (cfg : ScenarioConfig) (st : ScenarioState) (tr : ℚ) :
    (stepCompute ic i dev infl cum cfg st tr).2.liquidValue =
      if cfg.isISK then st.amount else st.amount - (st.amount - ic) * cfg.capitalGainsTax := rfl

theorem stepCompute_state_amount_nonneg (ic : ℚ) (i : ℕ) (dev infl cum : ℚ)
    (cfg : ScenarioConfig) (st : ScenarioState) (tr : ℚ) :
    0 ≤ (stepCompute ic i dev infl cum cfg st tr).1.amount := by
  simp only [stepCompute]
  split <;> exact le_max_left _ _

theorem stepCompute_state_yearlyAmounts (ic : ℚ) (i : ℕ) (dev infl cum : ℚ)
    (cfg : ScenarioConfig) (st : ScenarioState) (tr : ℚ) :
    (stepCompute ic i dev infl cum cfg st tr).1.yearlyAmounts =
      st.yearlyAmounts ++ [(stepCompute ic i dev infl cum cfg st tr).1.amount] := rfl

theorem fold_at_cfg (ic : ℚ) (i : ℕ) (dev infl cum : ℚ)
    (l1 l2 : List ScenarioConfig) (cfg : ScenarioConfig)
    (h1 : ∀ c ∈ l1, c.name ≠ cfg.name) (h2 : ∀ c ∈ l2, c.name ≠ cfg.name)
    (acc : YearAcc) (st : ScenarioState)
    (hst : recordGet acc.states cfg.name = some st) :
    ∃ r : RandState,
      recordGet ((l1 ++ cfg :: l2).foldl (processScenario ic i dev infl cum) acc).states
          cfg.name =
        some (stepCompute ic i dev infl cum cfg st (stepTaxRate cfg st r).1).1 ∧
      recordGet ((l1 ++ cfg :: l2).foldl (processScenario ic i dev infl cum) acc).syd
          cfg.name =
        some (stepCompute ic i dev infl cum cfg st (stepTaxRate cfg st r).1).2 := by
  rw [List.foldl_append, List.foldl_cons]
  obtain ⟨hs1, _, _⟩ := fold_process_preserves ic i dev infl cum l1 acc cfg.name h1
  obtain ⟨hs2, hy2, _⟩ := fold_process_preserves ic i dev infl cum l2
    (processScenario ic i dev infl cum (l1.foldl (processScenario ic i dev infl cum) acc) cfg)
    cfg.name h2
  have hread : (recordGet (l1.foldl (processScenario ic i dev infl cum) acc).states
      cfg.name).getD junkState = st := by
    rw [hs1, hst]
    rfl
  refine ⟨(l1.foldl (processScenario ic i dev infl cum) acc).rand, ?_, ?_⟩
  · rw [hs2]
    show recordGet (recordSet _ cfg.name _) cfg.name = _
    rw [recordGet_recordSet_self, hread]
  · rw [hy2]
    show recordGet (recordSet _ cfg.name _) cfg.name = _
    rw [recordGet_recordSet_self, hread]

theorem yearStep_perCfg (p : InputParameters) (cfg : ScenarioConfig)
    (l1 l2 : List ScenarioConfig) (hsplit : p.scenarios = l1 ++ cfg :: l2)
    (h1 : ∀ c ∈ l1, c.name ≠ cfg.name) (h2 : ∀ c ∈ l2, c.name ≠ cfg.name)
    (S : ℕ → ScenarioState → Prop) (D : ℕ → ScenarioYearlyData → Prop)
    (hstep : ∀ (i : ℕ) (dev infl cum : ℚ) (r : RandState) (st : ScenarioState), S i st →
        S (i + 1)
            (stepCompute p.initialCapital i dev infl cum cfg st (stepTaxRate cfg st r).1).1 ∧
        D i (stepCompute p.initialCapital i dev infl cum cfg st (stepTaxRate cfg st r).1).2)
    (i : ℕ) (acc : SimAcc) (hinv : perCfgInv p cfg S D i acc) :
    perCfgInv p cfg S D (i + 1) (yearStep p i acc) := by
  obtain ⟨⟨st, hst, hS⟩, hlen, hrec⟩ := hinv
  obtain ⟨r2, hstates, hsyd⟩ := fold_at_cfg p.initialCapital i
      (randomNormal p.development p.developmentStdDev
        (randomNormal p.inflationRate p.inflationStdDev acc.rand).2).1
      (randomNormal p.inflationRate p.inflationStdDev acc.rand).1
      (acc.cumulativeInflation *
        (1 + (randomNormal p.inflationRate p.inflationStdDev acc.rand).1))
      l1 l2 cfg h1 h2
      ⟨acc.states, [], acc.fyd,
        (randomNormal p.development p.developmentStdDev
          (randomNormal p.inflationRate p.inflationStdDev acc.rand).2).2⟩ st hst
  obtain ⟨hS', hD'⟩ := hstep i
      (randomNormal p.development p.developmentStdDev
        (randomNormal p.inflationRate p.inflationStdDev acc.rand).2).1
      (randomNormal p.inflationRate p.inflationStdDev acc.rand).1
      (acc.cumulativeInflation *
        (1 + (randomNormal p.inflationRate p.inflationStdDev acc.rand).1))
      r2 st hS
  refine ⟨⟨_, ?_, hS'⟩, ?_, ?_⟩
  · show recordGet (yearStep p i acc).states cfg.name = _
    simp only [yearStep, hsplit]
    exact hstates
  · show (yearStep p i acc).yearlyData.length = i + 1
    simp only [yearStep]
    rw [List.length_append, hlen]
    rfl
  · intro j yd hyd d hd
    revert hyd
    show (yearStep p i acc).yearlyData[j]? = some yd → _
    simp only [yearStep]
    intro hyd
    rcases lt_trichotomy j i with hj | hj | hj
    · rw [List.getElem?_append, if_pos (by omega)] at hyd
      exact hrec j yd hyd d hd
    · rw [List.getElem?_append_right (by omega)] at hyd
      rw [show j - acc.yearlyData.length = 0 from by omega] at hyd
      simp only [List.getElem?_cons_zero] at hyd
      obtain rfl := Option.some.inj hyd
      simp only [hsplit] at hd
      rw [hsyd] at hd
      obtain rfl := Option.some.inj hd
      rw [hj]
      exact hD'
    · rw [List.getElem?_eq_none
        (by simp only [List.length_append, hlen, List.length_singleton]; omega)] at hyd
      exact absurd hyd (by simp)

theorem per_config_invariant (p : InputParameters) (g : RandState) (cfg : ScenarioConfig)
    (hmem : cfg ∈ p.scenarios) (hnodup : (p.scenarios.map (·.name)).Nodup)
    (S : ℕ → ScenarioState → Prop) (D : ℕ → ScenarioYearlyData → Prop)
    (hinit : S 0 (initScenarioState p cfg))
    (hstep : ∀ (i : ℕ) (dev infl cum : ℚ) (r : RandState) (st : ScenarioState), S i st →
        S (i + 1)
            (stepCompute p.initialCapital i dev infl cum cfg st (stepTaxRate cfg st r).1).1 ∧
        D i (stepCompute p.initialCapital i dev infl cum cfg st (stepTaxRate cfg st r).1).2) :
    (∃ st, recordGet (simulateYears p g).states cfg.name = some st ∧
        S p.yearsLater.toNat st) ∧
    (∀ j yd, (simulateYears p g).yearlyData[j]? = some yd →
        ∀ d, recordGet yd.scenarios cfg.name = some d → D j d) := by
  obtain ⟨l1, l2, hsplit, h1, h2⟩ := nodup_split cfg p.scenarios hmem hnodup
  have hinitget : recordGet (initStates p) cfg.name = some (initScenarioState p cfg) := by
    rw [initStates, hsplit, List.foldl_append, List.foldl_cons]
    rw [recordGet_foldl_writes_ne (·.name) (initScenarioState p) l2 _ _ h2]
    exact recordGet_recordSet_self _ _ _
  have haux : ∀ (n i : ℕ) (acc : SimAcc), perCfgInv p cfg S D i acc →
      perCfgInv p cfg S D (i + n) (runFrom p i n acc) := by
    intro n
    induction n with
    | zero => intro i acc h; simpa using h
    | succ m ih =>
        intro i acc h
        have hnext := yearStep_perCfg p cfg l1 l2 hsplit h1 h2 S D hstep i acc h
        have hres := ih (i + 1) _ hnext
        rw [show i + (m + 1) = i + 1 + m from by omega]
        exact hres
  have hstart : perCfgInv p cfg S D 0 ⟨initStates p, 1, [], [], g⟩ :=
    ⟨⟨_, hinitget, hinit⟩, rfl, by intro j yd h; simp at h⟩
  have hfin := haux p.yearsLater.toNat 0 _ hstart
  rw [Nat.zero_add] at hfin
  exact ⟨hfin.1, hfin.2.2⟩

/-- Claim C10 (amended): the basis-rate random walk and its clamping to
[0.0125, 1] run only when `isISK` holds and `iskTaxRateStdDev` is present
and nonzero; for every scenario whose walk is inactive — every non-ISK
scenario, and every ISK scenario with absent or zero volatility — the
recorded tax rate of every year equals `iskTaxRate ?? 0` (the configured
rate when present, otherwise 0), unclamped even outside [0.0125, 1]. -/
theorem C10_inactive_walk_taxRate_constant (p : InputParameters) (g : RandState)
    (cfg : ScenarioConfig) (hmem : cfg ∈ p.scenarios)
    (hnodup : (p.scenarios.map (·.name)).Nodup) (hwalk : walkActive cfg = false) :
    ∀ (j : ℕ) (yd : YearlyData), (simulateYears p g).yearlyData[j]? = some yd →
      ∀ (d : ScenarioYearlyData), recordGet yd.scenarios cfg.name = some d →
        d.taxRate = cfg.iskTaxRate.getD 0 := by
  have h := per_config_invariant p g cfg hmem hnodup
    (fun _ st => st.currentTaxRate = cfg.iskTaxRate.getD 0)
    (fun _ d => d.taxRate = cfg.iskTaxRate.getD 0)
    rfl
    (by
      intro i dev infl cum r st hS
      rw [stepTaxRate_inactive cfg st r hwalk]
      exact ⟨by simpa [stepCompute_state_taxRate] using hS,
        by simpa [stepCompute_data_taxRate] using hS⟩)
  exact h.2

/-- Witness for C10: the amended statement applied to the non-ISK scenario
of `paramsC10`, whose configured rate 0.5 lies outside [0.0125, 1]'s
clamping reach only in the sense that no clamping happens at all. -/
theorem C10_inactive_walk_taxRate_constant_witness :
    cfgVPRate ∈ paramsC10.scenarios ∧ (paramsC10.scenarios.map (·.name)).Nodup ∧
    walkActive cfgVPRate = false ∧
    (∀ (j : ℕ) (yd : YearlyData),
        (simulateYears paramsC10 (constStream 0)).yearlyData[j]? = some yd →
      ∀ (d : ScenarioYearlyData), recordGet yd.scenarios cfgVPRate.name = some d →
        d.taxRate = cfgVPRate.iskTaxRate.getD 0) :=
  ⟨by simp [paramsC10], by simp [paramsC10, cfgVPRate, cfgVP], rfl,
    C10_inactive_walk_taxRate_constant paramsC10 (constStream 0) cfgVPRate
      (by simp [paramsC10]) (by simp [paramsC10, cfgVPRate, cfgVP]) rfl⟩

/-- Claim C1 (amended): for every deferred-gains (non-ISK) scenario with a
distinct name, the recorded liquidation value of every simulated year is
`balance − (balance − initialCapital) × capitalGainsTax` with no flooring
of the unrealized gain: a balance below the initial capital yields a
liquidation value above the balance (the code deliberately allows negative
future tax). -/
theorem C1_vp_liquidation_no_floor (p : InputParameters) (g : RandState)
    (cfg : ScenarioConfig) (hmem : cfg ∈ p.scenarios)
    (hnodup : (p.scenarios.map (·.name)).Nodup) (hvp : cfg.isISK = false) :
    ∀ (j : ℕ) (yd : YearlyData), (simulateYears p g).yearlyData[j]? = some yd →
      ∀ (d : ScenarioYearlyData), recordGet yd.scenarios cfg.name = some d →
        d.liquidValue = d.amount - (d.amount - p.initialCapital) * cfg.capitalGainsTax := by
  have h := per_config_invariant p g cfg hmem hnodup (fun _ _ => True)
    (fun _ d => d.liquidValue = d.amount - (d.amount - p.initialCapital) * cfg.capitalGainsTax)
    trivial
    (by
      intro i dev infl cum r st _
      refine ⟨trivial, ?_⟩
      simp [stepCompute_data_liquidValue, stepCompute_data_amount, hvp])
  exact h.2

/-- Witness for C1: the amended statement applied to the deferred-gains
scenario of `paramsC1`. -/
theorem C1_vp_liquidation_no_floor_witness :
    cfgVP ∈ paramsC1.scenarios ∧ (paramsC1.scenarios.map (·.name)).Nodup ∧
    cfgVP.isISK = false ∧
    (∀ (j : ℕ) (yd : YearlyData),
        (simulateYears paramsC1 (constStream 0)).yearlyData[j]? = some yd →
      ∀ (d : ScenarioYearlyData), recordGet yd.scenarios cfgVP.name = some d →
        d.liquidValue =
          d.amount - (d.amount - paramsC1.initialCapital) * cfgVP.capitalGainsTax) :=
  ⟨by simp [paramsC1], by simp [paramsC1, cfgVP], rfl,
    C1_vp_liquidation_no_floor paramsC1 (constStream 0) cfgVP
      (by simp [paramsC1]) (by simp [paramsC1, cfgVP]) rfl⟩

theorem stepTaxRate_rand_g (cfg : ScenarioConfig) (st : ScenarioState) (r : RandState) :
    (stepTaxRate cfg st r).2.g = r.g := by
  rw [stepTaxRate]
  split <;> rfl

theorem processScenario_rand_g (ic : ℚ) (i : ℕ) (dev infl cum : ℚ)
    (acc : YearAcc) (cfg : ScenarioConfig) :
    (processScenario ic i dev infl cum acc cfg).rand.g = acc.rand.g :=
  stepTaxRate_rand_g cfg _ acc.rand

theorem fold_rand_g (ic : ℚ) (i : ℕ) (dev infl cum : ℚ)
    (cs : List ScenarioConfig) (acc : YearAcc) :
    ((cs.foldl (processScenario ic i dev infl cum) acc).rand).g = acc.rand.g := by
  induction cs generalizing acc with
  | nil => rfl
  | cons c t ih => rw [List.foldl_cons, ih, processScenario_rand_g]

theorem yearStep_rand_g (p : InputParameters) (i : ℕ) (acc : SimAcc) :
    (yearStep p i acc).rand.g = acc.rand.g := by
  simp only [yearStep]
  rw [fold_rand_g]
  rfl

theorem yearStep_cumulativeInflation (p : InputParameters) (i : ℕ) (acc : SimAcc) :
    (yearStep p i acc).cumulativeInflation =
      acc.cumulativeInflation *
        (1 + (randomNormal p.inflationRate p.inflationStdDev acc.rand).1) := rfl

theorem yearStep_yearlyData (p : InputParameters) (i : ℕ) (acc : SimAcc) :
    (yearStep p i acc).yearlyData = acc.yearlyData ++
      [⟨p.startYear + i,
        (randomNormal p.development p.developmentStdDev
          (randomNormal p.inflationRate p.inflationStdDev acc.rand).2).1,
        (randomNormal p.inflationRate p.inflationStdDev acc.rand).1,
        acc.cumulativeInflation *
          (1 + (randomNormal p.inflationRate p.inflationStdDev acc.rand).1),
        (p.scenarios.foldl
          (processScenario p.initialCapital i
            (randomNormal p.development p.developmentStdDev
              (randomNormal p.inflationRate p.inflationStdDev acc.rand).2).1
            (randomNormal p.inflationRate p.inflationStdDev acc.rand).1
            (acc.cumulativeInflation *
              (1 + (randomNormal p.inflationRate p.inflationStdDev acc.rand).1)))
          ⟨acc.states, [], acc.fyd,
            (randomNormal p.development p.developmentStdDev
              (randomNormal p.inflationRate p.inflationStdDev acc.rand).2).2⟩).syd⟩] := rfl

/-- Claim C6 (amended): the cumulative inflation factor is strictly
positive in every recorded year and monotonically non-decreasing across
the years, provided every inflation draw is nonnegative; the code never
restricts the draw itself, so a negative draw can make the factor decrease
and a draw at or below -1 can make it nonpositive. -/
theorem C6_cumulative_inflation_pos_mono (p : InputParameters) (g : ℕ → ℚ) (k : ℕ)
    (hpos : ∀ n, 0 ≤ p.inflationRate + g n * p.inflationStdDev) :
    (∀ yd ∈ (simulateYears p ⟨g, k⟩).yearlyData, 0 < yd.inflation) ∧
    List.Chain' (fun a b => a ≤ b)
      ((simulateYears p ⟨g, k⟩).yearlyData.map (·.inflation)) := by
  have haux : ∀ (n i : ℕ) (acc : SimAcc), acc.rand.g = g →
      0 < acc.cumulativeInflation →
      (∀ yd ∈ acc.yearlyData, 0 < yd.inflation) →
      List.Chain' (fun a b => a ≤ b) (acc.yearlyData.map (·.inflation)) →
      (∀ x ∈ (acc.yearlyData.map (·.inflation)).getLast?, x ≤ acc.cumulativeInflation) →
      (∀ yd ∈ (runFrom p i n acc).yearlyData, 0 < yd.inflation) ∧
      List.Chain' (fun a b => a ≤ b) ((runFrom p i n acc).yearlyData.map (·.inflation)) := by
    intro n
    induction n with
    | zero =>
        intro i acc _ _ h2 h3 _
        exact ⟨h2, h3⟩
    | succ m ih =>
        intro i acc hg hc h2 h3 h4
        have hdraw : 0 ≤ (randomNormal p.inflationRate p.inflationStdDev acc.rand).1 := by
          show 0 ≤ p.inflationRate + acc.rand.g acc.rand.k * p.inflationStdDev
          rw [hg]
          exact hpos acc.rand.k
        have hcum : acc.cumulativeInflation ≤
            acc.cumulativeInflation *
              (1 + (randomNormal p.inflationRate p.inflationStdDev acc.rand).1) := by
          nlinarith
        have hcpos : 0 < acc.cumulativeInflation *
            (1 + (randomNormal p.inflationRate p.inflationStdDev acc.rand).1) := by
          nlinarith
        refine ih (i + 1) (yearStep p i acc) ?_ ?_ ?_ ?_ ?_
        · rw [yearStep_rand_g]
          exact hg
        · rw [yearStep_cumulativeInflation]
          exact hcpos
        · rw [yearStep_yearlyData]
          intro yd hyd
          rcases List.mem_append.mp hyd with h | h
          · exact h2 yd h
          · rw [List.mem_singleton.mp h]
            exact hcpos
        · rw [yearStep_yearlyData, List.map_append]
          rw [List.chain'_append]
          refine ⟨h3, List.chain'_singleton _, ?_⟩
          intro x hx y hy
          simp only [List.map_cons, List.map_nil, List.head?_cons, Option.mem_def,
            Option.some.injEq] at hy
          subst hy
          exact le_trans (h4 x hx) hcum
        · rw [yearStep_yearlyData, List.map_append, yearStep_cumulativeInflation]
          simp only [List.map_cons, List.map_nil]
          intro x hx
          rw [List.getLast?_concat] at hx
          obtain rfl := Option.some.inj (Option.mem_def.mp hx)
          exact le_refl _
  have h0 := haux p.yearsLater.toNat 0 ⟨initStates p, 1, [], [], ⟨g, k⟩⟩ rfl (by norm_num)
    (by intro yd h; simp at h) List.chain'_nil (by intro x hx; simp at hx)
  exact h0

/-- Witness for C6: the amended statement applied to `paramsC4`, whose
inflation draws are identically zero. -/
theorem C6_cumulative_inflation_pos_mono_witness :
    (∀ n : ℕ, (0 : ℚ) ≤ paramsC4.inflationRate + (fun _ => (0 : ℚ)) n * paramsC4.inflationStdDev) ∧
    (∀ yd ∈ (simulateYears paramsC4 ⟨fun _ => 0, 0⟩).yearlyData, 0 < yd.inflation) ∧
    List.Chain' (fun a b => a ≤ b)
      ((simulateYears paramsC4 ⟨fun _ => 0, 0⟩).yearlyData.map (·.inflation)) := by
  have h := C6_cumulative_inflation_pos_mono paramsC4 (fun _ => 0) 0
    (fun n => by norm_num [paramsC4])
  exact ⟨fun n => by norm_num [paramsC4], h.1, h.2⟩

theorem keys_recordSet_subset {α : Type} (l : List (String × α)) (n m : String) (v : α)
    (h : m ∈ (recordSet l n v).map Prod.fst) : m = n ∨ m ∈ l.map Prod.fst := by
  rw [List.mem_map] at h
  obtain ⟨e, he, rfl⟩ := h
  rcases mem_recordSet_weak l n v e he with h | h
  · subst h
    exact Or.inl rfl
  · exact Or.inr (List.mem_map_of_mem _ h)

theorem keysNodup_recordSet {α : Type} (l : List (String × α)) (n : String) (v : α)
    (h : (l.map Prod.fst).Nodup) : ((recordSet l n v).map Prod.fst).Nodup := by
  induction l with
  | nil => simp [recordSet]
  | cons e t ih =>
      rw [List.map_cons, List.nodup_cons] at h
      by_cases he : e.1 = n
      · rw [recordSet, if_pos he, List.map_cons, List.nodup_cons]
        exact ⟨by rw [← he]; exact h.1, h.2⟩
      · rw [recordSet, if_neg he, List.map_cons, List.nodup_cons]
        refine ⟨?_, ih h.2⟩
        intro hm
        rcases keys_recordSet_subset t n e.1 v hm with h1 | h1
        · exact he h1
        · exact h.1 h1

theorem mem_recordSet_strong {α : Type} (l : List (String × α)) (n : String) (v : α)
    (hKU : (l.map Prod.fst).Nodup) (e : String × α) (h : e ∈ recordSet l n v) :
    e = (n, v) ∨ (e ∈ l ∧ e.1 ≠ n) := by
  induction l with
  | nil => simpa [recordSet] using h
  | cons a t ih =>
      rw [List.map_cons, List.nodup_cons] at hKU
      by_cases ha : a.1 = n
      · rw [recordSet, if_pos ha] at h
        rcases List.mem_cons.mp h with h | h
        · exact Or.inl h
        · refine Or.inr ⟨List.mem_cons_of_mem _ h, ?_⟩
          intro hen
          apply hKU.1
          rw [ha, ← hen]
          exact List.mem_map_of_mem _ h
      · rw [recordSet, if_neg ha] at h
        rcases List.mem_cons.mp h with h | h
        · subst h
          exact Or.inr ⟨List.mem_cons_self _ _, ha⟩
        · rcases ih hKU.2 h with h1 | h1
          · exact Or.inl h1
          · exact Or.inr ⟨List.mem_cons_of_mem _ h1.1, h1.2⟩

theorem foldl_recordSet_mem {β γ : Type} (key : γ → String) (G : γ → β) (cs : List γ)
    (m₀ : List (String × β)) (e : String × β)
    (h : e ∈ cs.foldl (fun m c => recordSet m (key c) (G c)) m₀) :
    e ∈ m₀ ∨ ∃ c ∈ cs, e = (key c, G c) := by
  induction cs generalizing m₀ with
  | nil => exact Or.inl h
  | cons c t ih =>
      rw [List.foldl_cons] at h
      rcases ih _ h with h1 | h1
      · rcases mem_recordSet_weak _ _ _ _ h1 with h2 | h2
        · exact Or.inr ⟨c, List.mem_cons_self _ _, h2⟩
        · exact Or.inl h2
      · obtain ⟨c', hc', he⟩ := h1
        exact Or.inr ⟨c', List.mem_cons_of_mem _ hc', he⟩

theorem foldl_recordSet_KU {β γ : Type} (key : γ → String) (G : γ → β) (cs : List γ)
    (m₀ : List (String × β)) (h : (m₀.map Prod.fst).Nodup) :
    (((cs.foldl (fun m c => recordSet m (key c) (G c)) m₀)).map Prod.fst).Nodup := by
  induction cs generalizing m₀ with
  | nil => exact h
  | cons c t ih => exact ih _ (keysNodup_recordSet _ _ _ h)

theorem mem_tail_append_singleton {α : Type} (l : List α) (a x : α)
    (h : x ∈ (l ++ [a]).tail) : x ∈ l.tail ∨ x = a := by
  cases l with
  | nil =>
      simp only [List.nil_append, List.tail_cons] at h
      simp at h
  | cons b t =>
      rw [List.cons_append, List.tail_cons] at h
      rcases List.mem_append.mp h with h | h
      · exact Or.inl h
      · exact Or.inr (List.mem_singleton.mp h)

theorem processScenario_states_char (ic : ℚ) (i : ℕ) (dev infl cum : ℚ)
    (acc : YearAcc) (cfg : ScenarioConfig) :
    ∃ w : ScenarioState,
      (processScenario ic i dev infl cum acc cfg).states = recordSet acc.states cfg.name w ∧
      0 ≤ w.amount ∧
      w.yearlyAmounts =
        ((recordGet acc.states cfg.name).getD junkState).yearlyAmounts ++ [w.amount] :=
  ⟨_, rfl, stepCompute_state_amount_nonneg ic i dev infl cum cfg
      ((recordGet acc.states cfg.name).getD junkState)
      (stepTaxRate cfg ((recordGet acc.states cfg.name).getD junkState) acc.rand).1, rfl⟩

theorem processScenario_syd_char (ic : ℚ) (i : ℕ) (dev infl cum : ℚ)
    (acc : YearAcc) (cfg : ScenarioConfig) :
    ∃ d : ScenarioYearlyData,
      (processScenario ic i dev infl cum acc cfg).syd = recordSet acc.syd cfg.name d ∧
      d.amount = ((recordGet acc.states cfg.name).getD junkState).amount :=
  ⟨_, rfl, rfl⟩

theorem read_amount_nonneg (states : List (String × ScenarioState)) (n : String)
    (h : statesNonneg states) : 0 ≤ ((recordGet states n).getD junkState).amount := by
  cases hg : recordGet states n with
  | none => norm_num [junkState]
  | some st => exact h (n, st) (recordGet_mem _ _ _ hg)

theorem read_tail_good (states : List (String × ScenarioState)) (n : String)
    (h : statesTailGood states) :
    ∀ x ∈ ((recordGet states n).getD junkState).yearlyAmounts.tail, 0 ≤ x := by
  cases hg : recordGet states n with
  | none => simp [junkState]
  | some st => exact h (n, st) (recordGet_mem _ _ _ hg)

theorem fold_tail_good (ic : ℚ) (i : ℕ) (dev infl cum : ℚ)
    (cs : List ScenarioConfig) (acc : YearAcc) (h : statesTailGood acc.states) :
    statesTailGood (cs.foldl (processScenario ic i dev infl cum) acc).states := by
  induction cs generalizing acc with
  | nil => exact h
  | cons c t ih =>
      rw [List.foldl_cons]
      refine ih _ ?_
      obtain ⟨w, hw, hwa, hwy⟩ := processScenario_states_char ic i dev infl cum acc c
      rw [hw]
      intro e he x hx
      rcases mem_recordSet_weak _ _ _ _ he with h1 | h1
      · subst h1
        have hx2 : x ∈ w.yearlyAmounts.tail := hx
        rw [hwy] at hx2
        rcases mem_tail_append_singleton _ _ _ hx2 with h2 | h2
        · exact read_tail_good acc.states c.name h x h2
        · rw [h2]
          exact hwa
      · exact h e h1 x hx

theorem fold_cover (p : InputParameters) (ic : ℚ) (i : ℕ) (dev infl cum : ℚ)
    (cs : List ScenarioConfig) (hcs : ∀ c ∈ cs, c ∈ p.scenarios) (acc : YearAcc)
    (h : statesCover p acc.states) :
    statesCover p (cs.foldl (processScenario ic i dev infl cum) acc).states := by
  induction cs generalizing acc with
  | nil => exact h
  | cons c t ih =>
      rw [List.foldl_cons]
      refine ih (fun x hx => hcs x (List.mem_cons_of_mem _ hx)) _ ?_
      obtain ⟨w, hw, _, _⟩ := processScenario_states_char ic i dev infl cum acc c
      rw [hw]
      intro e he
      rcases mem_recordSet_weak _ _ _ _ he with h1 | h1
      · subst h1
        exact ⟨c, hcs c (List.mem_cons_self _ _), rfl⟩
      · exact h e h1

theorem fold_KU (ic : ℚ) (i : ℕ) (dev infl cum : ℚ)
    (cs : List ScenarioConfig) (acc : YearAcc) (h : (acc.states.map Prod.fst).Nodup) :
    ((cs.foldl (processScenario ic i dev infl cum) acc).states.map Prod.fst).Nodup := by
  induction cs generalizing acc with
  | nil => exact h
  | cons c t ih =>
      rw [List.foldl_cons]
      refine ih _ ?_
      obtain ⟨w, hw, _, _⟩ := processScenario_states_char ic i dev infl cum acc c
      rw [hw]
      exact keysNodup_recordSet _ _ _ h

theorem fold_establish_nonneg (ic : ℚ) (i : ℕ) (dev infl cum : ℚ)
    (cs : List ScenarioConfig) (acc : YearAcc) (hKU : (acc.states.map Prod.fst).Nodup)
    (h : ∀ e ∈ acc.states, 0 ≤ e.2.amount ∨ ∃ c ∈ cs, c.name = e.1) :
    statesNonneg (cs.foldl (processScenario ic i dev infl cum) acc).states := by
  induction cs generalizing acc with
  | nil =>
      intro e he
      rcases h e he with h1 | h1
      · exact h1
      · obtain ⟨c, hc, _⟩ := h1
        exact absurd hc (List.not_mem_nil c)
  | cons c t ih =>
      rw [List.foldl_cons]
      obtain ⟨w, hw, hwa, _⟩ := processScenario_states_char ic i dev infl cum acc c
      refine ih _ ?_ ?_
      · rw [hw]
        exact keysNodup_recordSet _ _ _ hKU
      · rw [hw]
        intro e he
        rcases mem_recordSet_strong _ _ _ hKU e he with h1 | h1
        · subst h1
          exact Or.inl hwa
        · rcases h e h1.1 with h2 | h2
          · exact Or.inl h2
          · obtain ⟨c', hc', hname⟩ := h2
            rcases List.mem_cons.mp hc' with h3 | h3
            · exact absurd (by rw [← h3]; exact hname.symm) h1.2
            · exact Or.inr ⟨c', h3, hname⟩

theorem fold_syd_nonneg (ic : ℚ) (i : ℕ) (dev infl cum : ℚ)
    (cs : List ScenarioConfig) (acc : YearAcc) (hs : statesNonneg acc.states)
    (hy : sydNonneg acc.syd) :
    statesNonneg (cs.foldl (processScenario ic i dev infl cum) acc).states ∧
    sydNonneg (cs.foldl (processScenario ic i dev infl cum) acc).syd := by
  induction cs generalizing acc with
  | nil => exact ⟨hs, hy⟩
  | cons c t ih =>
      rw [List.foldl_cons]
      obtain ⟨w, hw, hwa, _⟩ := processScenario_states_char ic i dev infl cum acc c
      obtain ⟨d, hd, hda⟩ := processScenario_syd_char ic i dev infl cum acc c
      refine ih _ ?_ ?_
      · rw [hw]
        intro e he
        rcases mem_recordSet_weak _ _ _ _ he with h1 | h1
        · subst h1
          exact hwa
        · exact hs e h1
      · rw [hd]
        intro e he
        rcases mem_recordSet_weak _ _ _ _ he with h1 | h1
        · subst h1
          have : 0 ≤ d.amount := by
            rw [hda]
            exact read_amount_nonneg acc.states c.name hs
          exact this
        · exact hy e h1

theorem yearStep_states (p : InputParameters) (i : ℕ) (acc : SimAcc) :
    (yearStep p i acc).states =
      (p.scenarios.foldl
        (processScenario p.initialCapital i
          (randomNormal p.development p.developmentStdDev
            (randomNormal p.inflationRate p.inflationStdDev acc.rand).2).1
          (randomNormal p.inflationRate p.inflationStdDev acc.rand).1
          (acc.cumulativeInflation *
            (1 + (randomNormal p.inflationRate p.inflationStdDev acc.rand).1)))
        ⟨acc.states, [], acc.fyd,
          (randomNormal p.development p.developmentStdDev
            (randomNormal p.inflationRate p.inflationStdDev acc.rand).2).2⟩).states := rfl

/-- Claim C5: for every input, every trajectory, every year and every
scenario, the balance carried into the next year is nonnegative: every
entry appended to the per-scenario balance history is clamped at zero, the
final balances are nonnegative once at least one year ran, and every
recorded start-of-year balance from the second simulated year on is
nonnegative (the year-0 record carries the caller-supplied initial
capital). -/
theorem C5_balance_clamped_nonneg (p : InputParameters) (g : RandState) :
    (∀ e ∈ (simulateYears p g).states, ∀ x ∈ e.2.yearlyAmounts.tail, 0 ≤ x) ∧
    (1 ≤ p.yearsLater.toNat → ∀ e ∈ (simulateYears p g).states, 0 ≤ e.2.amount) ∧
    (∀ (j : ℕ) (yd : YearlyData), (simulateYears p g).yearlyData[j]? = some yd → 1 ≤ j →
      ∀ e ∈ yd.scenarios, 0 ≤ e.2.amount) := by
  have haux : ∀ (n i : ℕ) (acc : SimAcc),
      statesTailGood acc.states →
      (acc.states.map Prod.fst).Nodup →
      statesCover p acc.states →
      (1 ≤ i → statesNonneg acc.states) →
      acc.yearlyData.length = i →
      (∀ (j : ℕ) (yd : YearlyData), acc.yearlyData[j]? = some yd → 1 ≤ j →
        sydNonneg yd.scenarios) →
      statesTailGood (runFrom p i n acc).states ∧
      (1 ≤ i + n → statesNonneg (runFrom p i n acc).states) ∧
      (∀ (j : ℕ) (yd : YearlyData), (runFrom p i n acc).yearlyData[j]? = some yd → 1 ≤ j →
        sydNonneg yd.scenarios) := by
    intro n
    induction n with
    | zero =>
        intro i acc h1 _ _ h4 _ h6
        exact ⟨h1, by rw [Nat.add_zero]; exact h4, h6⟩
    | succ m ih =>
        intro i acc h1 h2 h3 h4 h5 h6
        have hres := ih (i + 1) (yearStep p i acc) ?_ ?_ ?_ ?_ ?_ ?_
        · refine ⟨hres.1, ?_, hres.2.2⟩
          intro _
          exact hres.2.1 (by omega)
        · rw [yearStep_states]
          exact fold_tail_good _ _ _ _ _ _ _ h1
        · rw [yearStep_states]
          exact fold_KU _ _ _ _ _ _ _ h2
        · rw [yearStep_states]
          exact fold_cover p _ _ _ _ _ p.scenarios (fun c hc => hc) _ h3
        · intro _
          rw [yearStep_states]
          refine fold_establish_nonneg _ _ _ _ _ p.scenarios _ h2 ?_
          intro e he
          exact Or.inr (h3 e he)
        · rw [yearStep_yearlyData, List.length_append, h5]
          rfl
        · intro j yd hyd hj
          revert hyd
          rw [yearStep_yearlyData]
          intro hyd
          rcases lt_trichotomy j i with hcase | hcase | hcase
          · rw [List.getElem?_append, if_pos (by omega)] at hyd
            exact h6 j yd hyd hj
          · rw [List.getElem?_append_right (by omega)] at hyd
            rw [show j - acc.yearlyData.length = 0 from by omega] at hyd
            simp only [List.getElem?_cons_zero] at hyd
            obtain rfl := Option.some.inj hyd
            have hnn : statesNonneg acc.states := h4 (by omega)
            have hfold := fold_syd_nonneg p.initialCapital i
              (randomNormal p.development p.developmentStdDev
                (randomNormal p.inflationRate p.inflationStdDev acc.rand).2).1
              (randomNormal p.inflationRate p.inflationStdDev acc.rand).1
              (acc.cumulativeInflation *
                (1 + (randomNormal p.inflationRate p.inflationStdDev acc.rand).1))
              p.scenarios
              ⟨acc.states, [], acc.fyd,
                (randomNormal p.development p.developmentStdDev
                  (randomNormal p.inflationRate p.inflationStdDev acc.rand).2).2⟩
              hnn (by intro e he; simp at he)
            exact hfold.2
          · rw [List.getElem?_eq_none
              (by simp only [List.length_append, h5, List.length_singleton]; omega)] at hyd
            exact absurd hyd (by simp)
  have h0 := haux p.yearsLater.toNat 0 ⟨initStates p, 1, [], [], g⟩ ?_ ?_ ?_ ?_ rfl ?_
  · exact ⟨h0.1, by rw [← Nat.zero_add p.yearsLater.toNat]; exact h0.2.1, h0.2.2⟩
  · intro e he x hx
    rcases foldl_recordSet_mem _ _ _ _ _ he with h | h
    · exact absurd h (List.not_mem_nil e)
    · obtain ⟨c, _, rfl⟩ := h
      have hx2 : x ∈ (initScenarioState p c).yearlyAmounts.tail := hx
      simp [initScenarioState] at hx2
  · exact foldl_recordSet_KU _ _ _ _ (by simp)
  · intro e he
    rcases foldl_recordSet_mem _ _ _ _ _ he with h | h
    · exact absurd h (List.not_mem_nil e)
    · obtain ⟨c, hc, rfl⟩ := h
      exact ⟨c, hc, rfl⟩
  · intro h
    exact absurd h (by norm_num)
  · intro j yd hyd
    simp at hyd

/-- Witness for C5: the nonnegativity statement applied to the two-year
run of `paramsC1`, checking the recorded second-year balance. -/
theorem C5_balance_clamped_nonneg_witness :
    (1 ≤ paramsC1.yearsLater.toNat →
      ∀ e ∈ (simulateYears paramsC1 (constStream 0)).states, 0 ≤ e.2.amount) ∧
    (∀ (j : ℕ) (yd : YearlyData),
      (simulateYears paramsC1 (constStream 0)).yearlyData[j]? = some yd → 1 ≤ j →
      ∀ e ∈ yd.scenarios, 0 ≤ e.2.amount) :=
  ⟨(C5_balance_clamped_nonneg paramsC1 (constStream 0)).2.1,
   (C5_balance_clamped_nonneg paramsC1 (constStream 0)).2.2⟩

theorem metricTermSq_nonneg (m : Metric) (idx : ℕ) : 0 ≤ metricTermSq m idx := by
  simp only [metricTermSq]
  exact mul_self_nonneg _

theorem repDistSq_nonneg (sqrt : ℚ → ℚ) (simResults : List SimulationResult)
    (stats : SimulationStatistics) (names : List String) (idx : ℕ) :
    0 ≤ repDistSq sqrt simResults stats names idx := by
  apply List.sum_nonneg
  intro x hx
  rw [List.mem_map] at hx
  obtain ⟨m, _, rfl⟩ := hx
  exact metricTermSq_nonneg m idx

theorem repStep_none (sqrt : ℚ → ℚ) (simResults : List SimulationResult)
    (stats : SimulationStatistics) (names : List String) (idx : ℕ) :
    repStep sqrt simResults stats names (none, none) idx =
      (some (sqrt (repDistSq sqrt simResults stats names idx)), some idx) := rfl

theorem repStep_some (sqrt : ℚ → ℚ) (simResults : List SimulationResult)
    (stats : SimulationStatistics) (names : List String) (idx : ℕ) (md : ℚ) (b : Option ℕ) :
    repStep sqrt simResults stats names (some md, b) idx =
      if sqrt (repDistSq sqrt simResults stats names idx) < md then
        (some (sqrt (repDistSq sqrt simResults stats names idx)), some idx)
      else (some md, b) := rfl

theorem repFold_argmin (sqrt : ℚ → ℚ) (simResults : List SimulationResult)
    (stats : SimulationStatistics) (names : List String)
    (hsq : ∀ a b : ℚ, 0 ≤ a → 0 ≤ b → (sqrt a < sqrt b ↔ a < b)) :
    ∀ m : ℕ, 1 ≤ m → ∃ b : ℕ,
      (List.range m).foldl (repStep sqrt simResults stats names) (none, none) =
        (some (sqrt (repDistSq sqrt simResults stats names b)), some b) ∧
      b < m ∧
      (∀ j < m, repDistSq sqrt simResults stats names b ≤
        repDistSq sqrt simResults stats names j) ∧
      (∀ j < b, repDistSq sqrt simResults stats names b <
        repDistSq sqrt simResults stats names j) := by
  intro m
  induction m with
  | zero => omega
  | succ m ih =>
      intro _
      rcases Nat.eq_zero_or_pos m with rfl | hm
      · refine ⟨0, ?_, by omega, ?_, by omega⟩
        · rw [show List.range 1 = [0] from rfl, List.foldl_cons, List.foldl_nil, repStep_none]
        · intro j hj
          rw [show j = 0 from by omega]
      · obtain ⟨b, heq, hb, hmin, hlt⟩ := ih hm
        rw [List.range_succ, List.foldl_append, List.foldl_cons, List.foldl_nil, heq,
          repStep_some]
        by_cases hcmp : sqrt (repDistSq sqrt simResults stats names m) <
            sqrt (repDistSq sqrt simResults stats names b)
        · have hdm : repDistSq sqrt simResults stats names m <
              repDistSq sqrt simResults stats names b :=
            (hsq _ _ (repDistSq_nonneg _ _ _ _ _) (repDistSq_nonneg _ _ _ _ _)).mp hcmp
          refine ⟨m, by rw [if_pos hcmp], by omega, ?_, ?_⟩
          · intro j hj
            rcases Nat.lt_succ_iff_lt_or_eq.mp hj with hj | rfl
            · exact le_trans (le_of_lt hdm) (hmin j hj)
            · exact le_refl _
          · intro j hj
            exact lt_of_lt_of_le hdm (hmin j hj)
        · have hdm : repDistSq sqrt simResults stats names b ≤
              repDistSq sqrt simResults stats names m := by
            by_contra hcon
            exact hcmp ((hsq _ _ (repDistSq_nonneg _ _ _ _ _)
              (repDistSq_nonneg _ _ _ _ _)).mpr (by linarith))
          refine ⟨b, by rw [if_neg hcmp], by omega, ?_, hlt⟩
          intro j hj
          rcases Nat.lt_succ_iff_lt_or_eq.mp hj with hj | rfl
          · exact hmin j hj
          · exact hdm

/-- Claim C9: with a nonempty results list and at least one scenario name
in the median statistics, the representative-trajectory selector returns
an index within range that is the smallest index attaining the minimum
summed-squared-z-score distance (strict comparison keeps the earliest
minimum); with an empty results list or no scenario names it returns
null.  The hypothesis on `sqrt` states the strict monotonicity of
`Math.sqrt` on nonnegatives, under which comparing the square-rooted
distances is equivalent to comparing the summed squares. -/
theorem C9_representative_selector (sqrt : ℚ → ℚ) (simResults : List SimulationResult)
    (stats : SimulationStatistics)
    (hsq : ∀ a b : ℚ, 0 ≤ a → 0 ≤ b → (sqrt a < sqrt b ↔ a < b)) :
    ((simResults = [] ∨ stats.median.scenarios.map (·.1) = []) →
      findRepresentativeSimulation sqrt simResults stats = none) ∧
    (simResults ≠ [] → stats.median.scenarios.map (·.1) ≠ [] →
      ∃ i : ℕ, findRepresentativeSimulation sqrt simResults stats = some i ∧
        i < simResults.length ∧
        (∀ j < simResults.length,
          repDistSq sqrt simResults stats (stats.median.scenarios.map (·.1)) i ≤
          repDistSq sqrt simResults stats (stats.median.scenarios.map (·.1)) j) ∧
        (∀ j < i,
          repDistSq sqrt simResults stats (stats.median.scenarios.map (·.1)) i <
          repDistSq sqrt simResults stats (stats.median.scenarios.map (·.1)) j)) := by
  constructor
  · intro h
    rcases h with h | h
    · subst h
      simp [findRepresentativeSimulation]
    · by_cases hlen : simResults.length = 0
      · simp [findRepresentativeSimulation, hlen]
      · simp [findRepresentativeSimulation, hlen, h]
  · intro hne hnames
    have hlen : simResults.length ≠ 0 := by
      intro h
      exact hne (List.length_eq_zero.mp h)
    have hnlen : (stats.median.scenarios.map (·.1)).length ≠ 0 := by
      intro h
      exact hnames (List.length_eq_zero.mp h)
    obtain ⟨b, heq, hb, hmin, hlt⟩ := repFold_argmin sqrt simResults stats
      (stats.median.scenarios.map (·.1)) hsq simResults.length (by omega)
    refine ⟨b, ?_, hb, hmin, hlt⟩
    simp only [findRepresentativeSimulation]
    rw [if_neg hlen, if_neg hnlen, heq]


/-- Witness for C9: the selector applied to a one-element result list and
statistics carrying one scenario name, with the identity function (which
is strictly monotone) standing in for `Math.sqrt`. -/
theorem C9_representative_selector_witness :
    ([resW] : List SimulationResult) ≠ [] ∧
    statsW.median.scenarios.map (·.1) ≠ [] ∧
    (∃ i : ℕ, findRepresentativeSimulation id [resW] statsW = some i ∧
      i < ([resW] : List SimulationResult).length ∧
      (∀ j < ([resW] : List SimulationResult).length,
        repDistSq id [resW] statsW (statsW.median.scenarios.map (·.1)) i ≤
        repDistSq id [resW] statsW (statsW.median.scenarios.map (·.1)) j) ∧
      (∀ j < i,
        repDistSq id [resW] statsW (statsW.median.scenarios.map (·.1)) i <
        repDistSq id [resW] statsW (statsW.median.scenarios.map (·.1)) j)) :=
  ⟨by simp, by simp [statsW, sumW],
    (C9_representative_selector id [resW] statsW (fun a b _ _ => Iff.rfl)).2
      (by simp) (by simp [statsW, sumW])⟩

theorem processScenario_eq (ic : ℚ) (i : ℕ) (dev infl cum : ℚ)
    (acc : YearAcc) (cfg : ScenarioConfig) :
    processScenario ic i dev infl cum acc cfg =
      ⟨recordSet acc.states cfg.name (pcW ic i dev infl cum cfg acc),
       recordSet acc.syd cfg.name (pcD ic i dev infl cum cfg acc),
       (if i = 0 then
          recordSet acc.fyd cfg.name (pcD ic i dev infl cum cfg acc).withdrawnReal
        else acc.fyd),
       pcR cfg acc⟩ := rfl

theorem stepTaxRate_rand (cfg : ScenarioConfig) (st : ScenarioState) (r : RandState) :
    (stepTaxRate cfg st r).2 = if walkActive cfg then RandState.mk r.g (r.k + 1) else r := by
  rw [stepTaxRate]
  split <;> rfl

theorem pcR_eq (cfg : ScenarioConfig) (acc : YearAcc) :
    pcR cfg acc = if walkActive cfg then RandState.mk acc.rand.g (acc.rand.k + 1)
      else acc.rand := by
  rw [pcR, pcTr, stepTaxRate_rand]

theorem pcSt_congr (cfg : ScenarioConfig) (a b : YearAcc)
    (h : recordGet a.states cfg.name = recordGet b.states cfg.name) :
    pcSt cfg a = pcSt cfg b := by
  rw [pcSt, pcSt, h]

theorem pcTr_congr (cfg : ScenarioConfig) (a b : YearAcc)
    (h : recordGet a.states cfg.name = recordGet b.states cfg.name)
    (hr : a.rand = b.rand) : pcTr cfg a = pcTr cfg b := by
  rw [pcTr, pcTr, pcSt_congr cfg a b h, hr]

theorem pcW_congr (ic : ℚ) (i : ℕ) (dev infl cum : ℚ) (cfg : ScenarioConfig) (a b : YearAcc)
    (h : recordGet a.states cfg.name = recordGet b.states cfg.name)
    (hr : a.rand = b.rand) :
    pcW ic i dev infl cum cfg a = pcW ic i dev infl cum cfg b := by
  rw [pcW, pcW, pcSt_congr cfg a b h, pcTr_congr cfg a b h hr]

theorem pcD_congr (ic : ℚ) (i : ℕ) (dev infl cum : ℚ) (cfg : ScenarioConfig) (a b : YearAcc)
    (h : recordGet a.states cfg.name = recordGet b.states cfg.name)
    (hr : a.rand = b.rand) :
    pcD ic i dev infl cum cfg a = pcD ic i dev infl cum cfg b := by
  rw [pcD, pcD, pcSt_congr cfg a b h, pcTr_congr cfg a b h hr]

theorem pcR_congr (cfg : ScenarioConfig) (a b : YearAcc)
    (h : recordGet a.states cfg.name = recordGet b.states cfg.name)
    (hr : a.rand = b.rand) : pcR cfg a = pcR cfg b := by
  rw [pcR, pcR, pcTr_congr cfg a b h hr]

theorem agreeExcept_recordSet_same {α : Type} (n m0 : String) (v : α)
    (l l' : List (String × α)) (h : agreeExcept n l l') :
    agreeExcept n (recordSet l m0 v) (recordSet l' m0 v) := by
  intro m hm
  by_cases hmm : m = m0
  · subst hmm
    rw [recordGet_recordSet_self, recordGet_recordSet_self]
  · rw [recordGet_recordSet_ne _ _ _ _ hmm, recordGet_recordSet_ne _ _ _ _ hmm]
    exact h m hm

theorem agreeExcept_recordSet_exempt {α : Type} (n : String) (v1 v2 : α)
    (l l' : List (String × α)) (h : agreeExcept n l l') :
    agreeExcept n (recordSet l n v1) (recordSet l' n v2) := by
  intro m hm
  rw [recordGet_recordSet_ne _ _ _ _ hm, recordGet_recordSet_ne _ _ _ _ hm]
  exact h m hm

theorem yearAccRel_mk (n : String) (s1 s2 : List (String × ScenarioState))
    (y1 y2 : List (String × ScenarioYearlyData)) (f1 f2 : List (String × ℚ))
    (r1 r2 : RandState) (h1 : r1 = r2) (h2 : agreeExcept n s1 s2)
    (h3 : agreeExcept n y1 y2) (h4 : agreeExcept n f1 f2) :
    yearAccRel n ⟨s1, y1, f1, r1⟩ ⟨s2, y2, f2, r2⟩ := ⟨h1, h2, h3, h4⟩

theorem processScenario_agree (ic : ℚ) (i : ℕ) (dev infl cum : ℚ) (n : String)
    (c1 c2 : ScenarioConfig) (hrel : cfgRel n c1 c2) (a b : YearAcc)
    (hab : yearAccRel n a b) :
    yearAccRel n (processScenario ic i dev infl cum a c1)
      (processScenario ic i dev infl cum b c2) := by
  obtain ⟨hname, heqn, hwalk⟩ := hrel
  obtain ⟨hrand, hstates, hsyd, hfyd⟩ := hab
  rw [processScenario_eq, processScenario_eq]
  by_cases hn : c1.name = n
  · have hn2 : c2.name = n := by rw [← hname]; exact hn
    apply yearAccRel_mk
    · rw [pcR_eq, pcR_eq, hwalk, hrand]
    · rw [hn, hn2]
      exact agreeExcept_recordSet_exempt n _ _ _ _ hstates
    · rw [hn, hn2]
      exact agreeExcept_recordSet_exempt n _ _ _ _ hsyd
    · split
      · rw [hn, hn2]
        exact agreeExcept_recordSet_exempt n _ _ _ _ hfyd
      · exact hfyd
  · have hc : c1 = c2 := heqn hn
    subst hc
    have hread : recordGet a.states c1.name = recordGet b.states c1.name :=
      hstates c1.name hn
    apply yearAccRel_mk
    · exact pcR_congr c1 a b hread hrand
    · rw [pcW_congr ic i dev infl cum c1 a b hread hrand]
      exact agreeExcept_recordSet_same n _ _ _ _ hstates
    · rw [pcD_congr ic i dev infl cum c1 a b hread hrand]
      exact agreeExcept_recordSet_same n _ _ _ _ hsyd
    · split
      · rw [pcD_congr ic i dev infl cum c1 a b hread hrand]
        exact agreeExcept_recordSet_same n _ _ _ _ hfyd
      · exact hfyd

theorem fold_agree (ic : ℚ) (i : ℕ) (dev infl cum : ℚ) (n : String)
    (cs1 cs2 : List ScenarioConfig) (hcs : List.Forall₂ (cfgRel n) cs1 cs2) :
    ∀ (a b : YearAcc), yearAccRel n a b →
      yearAccRel n (cs1.foldl (processScenario ic i dev infl cum) a)
        (cs2.foldl (processScenario ic i dev infl cum) b) := by
  induction hcs with
  | nil => exact fun a b h => h
  | cons hc ht ih =>
      intro a b h
      rw [List.foldl_cons, List.foldl_cons]
      exact ih _ _ (processScenario_agree ic i dev infl cum n _ _ hc a b h)

theorem simAccRel_mk (n : String) (s1 s2 : List (String × ScenarioState))
    (c1 c2 : ℚ) (f1 f2 : List (String × ℚ)) (y1 y2 : List YearlyData)
    (r1 r2 : RandState) (h1 : r1 = r2) (h2 : c1 = c2) (h3 : agreeExcept n s1 s2)
    (h4 : agreeExcept n f1 f2) (h5 : List.Forall₂ (ydRel n) y1 y2) :
    simAccRel n ⟨s1, c1, f1, y1, r1⟩ ⟨s2, c2, f2, y2, r2⟩ := ⟨h1, h2, h3, h4, h5⟩

theorem forall₂_append_rel {α β : Type} {R : α → β → Prop} {l1 l2 : List α}
    {l1' l2' : List β} (h1 : List.Forall₂ R l1 l1') (h2 : List.Forall₂ R l2 l2') :
    List.Forall₂ R (l1 ++ l2) (l1' ++ l2') := by
  induction h1 with
  | nil => exact h2
  | cons hab ht ih => exact List.Forall₂.cons hab ih

theorem forall₂_append_single {α β : Type} {R : α → β → Prop} {l1 : List α} {l2 : List β}
    (h : List.Forall₂ R l1 l2) {x : α} {y : β} (hxy : R x y) :
    List.Forall₂ R (l1 ++ [x]) (l2 ++ [y]) := by
  induction h with
  | nil => exact List.Forall₂.cons hxy List.Forall₂.nil
  | cons hab ht ih => exact List.Forall₂.cons hab ih

theorem yearStep_agree (p1 p2 : InputParameters) (n : String)
    (hic : p1.initialCapital = p2.initialCapital)
    (hsy : p1.startYear = p2.startYear)
    (hir : p1.inflationRate = p2.inflationRate)
    (his : p1.inflationStdDev = p2.inflationStdDev)
    (hd : p1.development = p2.development)
    (hds : p1.developmentStdDev = p2.developmentStdDev)
    (hscen : List.Forall₂ (cfgRel n) p1.scenarios p2.scenarios)
    (i : ℕ) (a b : SimAcc) (hab : simAccRel n a b) :
    simAccRel n (yearStep p1 i a) (yearStep p2 i b) := by
  obtain ⟨hrand, hcum, hstates, hfyd, hyd⟩ := hab
  have hI : randomNormal p1.inflationRate p1.inflationStdDev a.rand =
      randomNormal p2.inflationRate p2.inflationStdDev b.rand := by
    rw [hir, his, hrand]
  have hD : randomNormal p1.development p1.developmentStdDev
        (randomNormal p1.inflationRate p1.inflationStdDev a.rand).2 =
      randomNormal p2.development p2.developmentStdDev
        (randomNormal p2.inflationRate p2.inflationStdDev b.rand).2 := by
    rw [hd, hds, hI]
  simp only [yearStep]
  rw [← hD, ← hI, ← hic, ← hsy, ← hcum]
  have hfold := fold_agree p1.initialCapital i
    (randomNormal p1.development p1.developmentStdDev
      (randomNormal p1.inflationRate p1.inflationStdDev a.rand).2).1
    (randomNormal p1.inflationRate p1.inflationStdDev a.rand).1
    (a.cumulativeInflation *
      (1 + (randomNormal p1.inflationRate p1.inflationStdDev a.rand).1))
    n p1.scenarios p2.scenarios hscen
    ⟨a.states, [], a.fyd,
      (randomNormal p1.development p1.developmentStdDev
        (randomNormal p1.inflationRate p1.inflationStdDev a.rand).2).2⟩
    ⟨b.states, [], b.fyd,
      (randomNormal p1.development p1.developmentStdDev
        (randomNormal p1.inflationRate p1.inflationStdDev a.rand).2).2⟩
    ⟨rfl, hstates, fun m _ => rfl, hfyd⟩
  obtain ⟨hfr, hfs, hfy, hff⟩ := hfold
  apply simAccRel_mk
  · exact hfr
  · rfl
  · exact hfs
  · exact hff
  · refine forall₂_append_single hyd ⟨rfl, rfl, rfl, rfl, hfy⟩

theorem runFrom_agree (p1 p2 : InputParameters) (n : String)
    (hic : p1.initialCapital = p2.initialCapital)
    (hsy : p1.startYear = p2.startYear)
    (hir : p1.inflationRate = p2.inflationRate)
    (his : p1.inflationStdDev = p2.inflationStdDev)
    (hd : p1.development = p2.development)
    (hds : p1.developmentStdDev = p2.developmentStdDev)
    (hscen : List.Forall₂ (cfgRel n) p1.scenarios p2.scenarios) :
    ∀ (m i : ℕ) (a b : SimAcc), simAccRel n a b →
      simAccRel n (runFrom p1 i m a) (runFrom p2 i m b) := by
  intro m
  induction m with
  | zero => exact fun i a b h => h
  | succ k ih =>
      intro i a b h
      exact ih (i + 1) _ _ (yearStep_agree p1 p2 n hic hsy hir his hd hds hscen i a b h)

theorem initScenarioState_congr (p1 p2 : InputParameters) (s : ScenarioConfig)
    (hic : p1.initialCapital = p2.initialCapital) :
    initScenarioState p1 s = initScenarioState p2 s := by
  rw [initScenarioState, initScenarioState, hic]

theorem initStates_agree (p1 p2 : InputParameters) (n : String)
    (hic : p1.initialCapital = p2.initialCapital)
    (hscen : List.Forall₂ (cfgRel n) p1.scenarios p2.scenarios) :
    agreeExcept n (initStates p1) (initStates p2) := by
  rw [initStates, initStates]
  have haux : ∀ (cs1 cs2 : List ScenarioConfig), List.Forall₂ (cfgRel n) cs1 cs2 →
      ∀ (m1 m2 : List (String × ScenarioState)), agreeExcept n m1 m2 →
      agreeExcept n (cs1.foldl (fun m s => recordSet m s.name (initScenarioState p1 s)) m1)
        (cs2.foldl (fun m s => recordSet m s.name (initScenarioState p2 s)) m2) := by
    intro cs1 cs2 h
    induction h with
    | nil => exact fun m1 m2 h => h
    | @cons c1 c2 t1 t2 hc ht ih =>
        intro m1 m2 hm
        rw [List.foldl_cons, List.foldl_cons]
        apply ih
        obtain ⟨hname, heqn, _⟩ := hc
        by_cases hn : c1.name = n
        · have hn2 : c2.name = n := by rw [← hname]; exact hn
          rw [hn, hn2]
          exact agreeExcept_recordSet_exempt n _ _ _ _ hm
        · have hc12 : c1 = c2 := heqn hn
          subst hc12
          rw [initScenarioState_congr p1 p2 c1 hic]
          exact agreeExcept_recordSet_same n _ _ _ _ hm
  exact haux p1.scenarios p2.scenarios hscen [] [] (fun m _ => rfl)

theorem forall₂_getLast? {α β : Type} {R : α → β → Prop} {l1 : List α} {l2 : List β}
    (h : List.Forall₂ R l1 l2) :
    (l1.getLast? = none ∧ l2.getLast? = none) ∨
    (∃ x y, l1.getLast? = some x ∧ l2.getLast? = some y ∧ R x y) := by
  rw [List.getLast?_eq_head?_reverse, List.getLast?_eq_head?_reverse]
  have hrev := List.forall₂_reverse_iff.mpr h
  revert hrev
  generalize l1.reverse = r1
  generalize l2.reverse = r2
  intro hrev
  cases hrev with
  | nil => exact Or.inl ⟨rfl, rfl⟩
  | cons hxy ht => exact Or.inr ⟨_, _, rfl, rfl, hxy⟩

theorem forall₂_map_eq {α β γ : Type} {R : α → β → Prop} {l1 : List α} {l2 : List β}
    (h : List.Forall₂ R l1 l2) (f : α → γ) (k : β → γ)
    (hf : ∀ x y, R x y → f x = k y) : l1.map f = l2.map k := by
  induction h with
  | nil => rfl
  | cons hab ht ih => rw [List.map_cons, List.map_cons, hf _ _ hab, ih]

theorem buildScenarioSummary_congr (p1 p2 : InputParameters) (n : String)
    (hic : p1.initialCapital = p2.initialCapital)
    (acc1 acc2 : SimAcc) (hrel : simAccRel n acc1 acc2)
    (ly1 ly2 : YearlyData) (hly : ydRel n ly1 ly2) (sc : ScenarioConfig)
    (hsc : sc.name ≠ n) :
    buildScenarioSummary p1 acc1 ly1 sc = buildScenarioSummary p2 acc2 ly2 sc := by
  obtain ⟨_, _, hstates, hfyd, hyd⟩ := hrel
  rw [buildScenarioSummary, buildScenarioSummary]
  rw [hly.2.2.2.2 sc.name hsc, hfyd sc.name hsc, hstates sc.name hsc, hic]
  rw [forall₂_map_eq hyd
    (fun y => ((recordGet y.scenarios sc.name).getD junkYearly).taxRate)
    (fun y => ((recordGet y.scenarios sc.name).getD junkYearly).taxRate)
    (fun x y hxy => by
      show ((recordGet x.scenarios sc.name).getD junkYearly).taxRate =
        ((recordGet y.scenarios sc.name).getD junkYearly).taxRate
      rw [hxy.2.2.2.2 sc.name hsc])]
  rw [hyd.length_eq]

theorem buildSummaries_agree (p1 p2 : InputParameters) (n : String)
    (hic : p1.initialCapital = p2.initialCapital)
    (hscen : List.Forall₂ (cfgRel n) p1.scenarios p2.scenarios)
    (acc1 acc2 : SimAcc) (hrel : simAccRel n acc1 acc2)
    (ly1 ly2 : YearlyData) (hly : ydRel n ly1 ly2) :
    agreeExcept n (buildSummaries p1 acc1 ly1) (buildSummaries p2 acc2 ly2) := by
  rw [buildSummaries, buildSummaries]
  have haux : ∀ (cs1 cs2 : List ScenarioConfig), List.Forall₂ (cfgRel n) cs1 cs2 →
      ∀ (m1 m2 : List (String × ScenarioSummary)), agreeExcept n m1 m2 →
      agreeExcept n
        (cs1.foldl (fun m sc => recordSet m sc.name (buildScenarioSummary p1 acc1 ly1 sc)) m1)
        (cs2.foldl (fun m sc => recordSet m sc.name (buildScenarioSummary p2 acc2 ly2 sc)) m2) := by
    intro cs1 cs2 h
    induction h with
    | nil => exact fun m1 m2 h => h
    | @cons c1 c2 t1 t2 hc ht ih =>
        intro m1 m2 hm
        rw [List.foldl_cons, List.foldl_cons]
        apply ih
        obtain ⟨hname, heqn, _⟩ := hc
        by_cases hn : c1.name = n
        · have hn2 : c2.name = n := by rw [← hname]; exact hn
          rw [hn, hn2]
          exact agreeExcept_recordSet_exempt n _ _ _ _ hm
        · have hc12 : c1 = c2 := heqn hn
          subst hc12
          rw [buildScenarioSummary_congr p1 p2 n hic acc1 acc2 hrel ly1 ly2 hly c1 hn]
          exact agreeExcept_recordSet_same n _ _ _ _ hm
  exact haux p1.scenarios p2.scenarios hscen [] [] (fun m _ => rfl)

/-- Claim C3 (amended): within one trajectory over a fixed random stream,
changing one scenario's configuration does not alter any other scenario's
computed yearly values, state, or summary, provided the change keeps the
scenario's name and preserves whether its ISK tax-rate random walk draws
from the stream (`isISK` together with a nonzero `iskTaxRateStdDev`); a
change toggling that walk shifts the shared stream and can alter other
scenarios' values. -/
theorem C3_scenario_frame (base : InputParameters) (pre post : List ScenarioConfig)
    (ck ck' : ScenarioConfig) (g : RandState)
    (hname : ck'.name = ck.name) (hwalk : walkActive ck' = walkActive ck) :
    simAccRel ck.name
      (simulateYears { base with scenarios := pre ++ ck :: post } g)
      (simulateYears { base with scenarios := pre ++ ck' :: post } g) ∧
    (∀ m : String, m ≠ ck.name →
      summaryAt (runSingleSimulation { base with scenarios := pre ++ ck :: post } g) m =
      summaryAt (runSingleSimulation { base with scenarios := pre ++ ck' :: post } g) m) := by
  have hrefl : ∀ cs : List ScenarioConfig, List.Forall₂ (cfgRel ck.name) cs cs := by
    intro cs
    induction cs with
    | nil => exact List.Forall₂.nil
    | cons c t ih => exact List.Forall₂.cons ⟨rfl, fun _ => rfl, rfl⟩ ih
  have hmid : cfgRel ck.name ck ck' :=
    ⟨hname.symm, fun h => absurd rfl h, hwalk.symm⟩
  have hscen : List.Forall₂ (cfgRel ck.name) (pre ++ ck :: post) (pre ++ ck' :: post) :=
    forall₂_append_rel (hrefl pre) (List.Forall₂.cons hmid (hrefl post))
  have hacc : simAccRel ck.name
      (simulateYears { base with scenarios := pre ++ ck :: post } g)
      (simulateYears { base with scenarios := pre ++ ck' :: post } g) := by
    rw [simulateYears, simulateYears]
    refine runFrom_agree { base with scenarios := pre ++ ck :: post }
      { base with scenarios := pre ++ ck' :: post } ck.name rfl rfl rfl rfl rfl rfl hscen
      _ 0 _ _ ?_
    exact ⟨rfl, rfl,
      initStates_agree { base with scenarios := pre ++ ck :: post }
        { base with scenarios := pre ++ ck' :: post } ck.name rfl hscen,
      fun m _ => rfl, List.Forall₂.nil⟩
  refine ⟨hacc, ?_⟩
  intro m hm
  rw [runSingleSimulation, runSingleSimulation]
  have hyd := hacc.2.2.2.2
  rcases forall₂_getLast? hyd with ⟨hl1, hl2⟩ | ⟨x, y, hl1, hl2, hxy⟩
  · rw [buildResult, buildResult, hl1, hl2]
    simp [summaryAt]
  · rw [buildResult, buildResult, hl1, hl2]
    simp only [summaryAt, Except.toOption, Option.map_some']
    rw [buildSummaries_agree { base with scenarios := pre ++ ck :: post }
      { base with scenarios := pre ++ ck' :: post } ck.name rfl hscen _ _ hacc x y hxy m hm]

/-- Witness for C3: only scenario B's capital-gains tax changes (its walk
stays active), so scenario A and every other record agree across the two
runs. -/
theorem C3_scenario_frame_witness :
    cfgB2.name = cfgB.name ∧ walkActive cfgB2 = walkActive cfgB ∧
    (simAccRel cfgB.name
      (simulateYears { paramsC3a with scenarios := [cfgAOff] ++ cfgB :: [] } centStream)
      (simulateYears { paramsC3a with scenarios := [cfgAOff] ++ cfgB2 :: [] } centStream) ∧
    (∀ m : String, m ≠ cfgB.name →
      summaryAt (runSingleSimulation
        { paramsC3a with scenarios := [cfgAOff] ++ cfgB :: [] } centStream) m =
      summaryAt (runSingleSimulation
        { paramsC3a with scenarios := [cfgAOff] ++ cfgB2 :: [] } centStream) m)) :=
  ⟨rfl, by simp [walkActive, cfgB2, cfgB],
    C3_scenario_frame paramsC3a [cfgAOff] [] cfgB cfgB2 centStream rfl
      (by simp [walkActive, cfgB2, cfgB])⟩

end IskVsVp
